import Mathlib

/-!
CasCmdLine: a model of the image-processing dispatch pipeline.

Shallow embedding of `src/CasCmdLine/CasCmdLine.cpp`.

* `uint32_t` values are natural numbers; every arithmetic step that can wrap is
  reduced modulo `2^32` explicitly (`u32`).
* Wide strings are lists of code units (without the terminating zero).
* Calls into WIC, Direct3D and the C runtime are recorded as `Event`s; whether a
  call guarded by `CHECK_HR` succeeds is read from an environment, keyed by the
  source line on which the guarded statement starts.
* `float` values are never computed with; they are kept as symbolic terms.
-/

namespace CasCmdLine

/-! ## Basic types -/

/-- A `const wchar_t*` string: its code units up to the terminating zero. -/
abbrev WString := List Nat

/-- A wide string literal `L"..."`. -/
def L (s : String) : WString := s.toList.map Char.toNat

/-- The constant `UINT32_MAX`. -/
def UINT32_MAX : Nat := 4294967295

/-- Reduction of an arithmetic result to `uint32_t`. -/
def u32 (n : Nat) : Nat := n % 4294967296

/-- The conversion `(uint32_t)` of an `int`. -/
def u32OfInt (z : Int) : Nat := (z % 4294967296).toNat

/-- A `float` value, kept symbolic: the literal `0.f`, the result of
`(float)_wtof(s)`, or the conversion `(float)n` of a `uint32_t`. -/
inductive float where
  | zero
  | of_wtof (s : WString)
  | of_uint32 (n : Nat)
deriving DecidableEq, Repr

/-- The enumeration `InterpolationMode`. -/
inductive InterpolationMode where
  | CAS
  | NearestNeighbor
  | Linear
  | Cubic
  | HighQualityCubic
  | Fant
  | Count
deriving DecidableEq, Repr

/-- The enumeration `WICBitmapInterpolationMode` (the five values the program uses). -/
inductive WICBitmapInterpolationMode where
  | NearestNeighbor
  | Linear
  | Cubic
  | HighQualityCubic
  | Fant
deriving DecidableEq, Repr

/-- The container format GUIDs the program names, and `GUID_NULL`. -/
inductive GUID where
  | GUID_NULL
  | GUID_ContainerFormatBmp
  | GUID_ContainerFormatPng
  | GUID_ContainerFormatIco
  | GUID_ContainerFormatJpeg
  | GUID_ContainerFormatTiff
  | GUID_ContainerFormatGif
  | GUID_ContainerFormatDds
  | GUID_ContainerFormatWmp
deriving DecidableEq, Repr

/-- The WIC pixel formats the program names. -/
inductive WICPixelFormatGUID where
  | GUID_WICPixelFormat64bppRGBAHalf
  | GUID_WICPixelFormat32bppRGBA
  | GUID_WICPixelFormat24bppBGR
deriving DecidableEq, Repr

/-- The DXGI texture formats the program names. -/
inductive DXGI_FORMAT where
  | DXGI_FORMAT_R16G16B16A16_FLOAT
  | DXGI_FORMAT_R8G8B8A8_UNORM
deriving DecidableEq, Repr

/-- The four precompiled shader arrays `g_mainCS`, one per including namespace.
A code pointer together with its `_countof` size is identified with the array. -/
inductive ShaderBlob where
  | NoScaling0_Linear0
  | NoScaling1_Linear0
  | NoScaling0_Linear1
  | NoScaling1_Linear1
deriving DecidableEq, Repr

/-- The struct `uvec2`. -/
structure uvec2 where
  x : Nat
  y : Nat
deriving DecidableEq, Repr

/-- The struct `FileToProcess`. -/
structure FileToProcess where
  srcFilePath : WString
  dstFilePath : WString
deriving DecidableEq, Repr

/-- The struct `LaunchParameters`, with its default member initialisers. -/
structure LaunchParameters where
  interpolationMode : InterpolationMode := InterpolationMode.CAS
  linear : Bool := false
  fp16 : Bool := false
  sharpness : float := float.zero
  dstSize : uvec2 := ⟨UINT32_MAX, UINT32_MAX⟩
  filesToProcess : List FileToProcess := []
deriving DecidableEq, Repr

/-! ## Free functions -/

/-- Lower-casing of one code unit as `_wcsicmp` does it in the "C" locale
(the program never changes the locale): only `A`..`Z` are changed. -/
def towlower (c : Nat) : Nat := if 65 ≤ c ∧ c ≤ 90 then c + 32 else c

/-- The C runtime `_wcsicmp`: compares the lower-cased strings, code unit by code
unit, the terminating zero included. -/
def wcsicmp : WString → WString → Int
  | [], [] => 0
  | [], b :: _ => 0 - (towlower b : Int)
  | a :: _, [] => (towlower a : Int) - 0
  | a :: as, b :: bs =>
    if towlower a = towlower b then wcsicmp as bs
    else (towlower a : Int) - (towlower b : Int)

/-- `StrToInterpolationMode`. -/
def StrToInterpolationMode (s : WString) : InterpolationMode :=
  if wcsicmp s (L "CAS") = 0 then InterpolationMode.CAS
  else if wcsicmp s (L "NearestNeighbor") = 0 then InterpolationMode.NearestNeighbor
  else if wcsicmp s (L "Linear") = 0 then InterpolationMode.Linear
  else if wcsicmp s (L "Cubic") = 0 then InterpolationMode.Cubic
  else if wcsicmp s (L "HighQualityCubic") = 0 then InterpolationMode.HighQualityCubic
  else if wcsicmp s (L "Fant") = 0 then InterpolationMode.Fant
  else InterpolationMode.Count

/-- `InterpolationModeNeedsGpu`. -/
def InterpolationModeNeedsGpu (mode : InterpolationMode) : Bool :=
  decide (mode = InterpolationMode.CAS)

/-- `CeilDiv<uint32_t>`: `(x+y-1) / y`, each step in 32-bit unsigned arithmetic. -/
def CeilDiv (x y : Nat) : Nat :=
  u32 (u32 (x + y) + 4294967295) / y

/-- `EndsWith`. -/
def EndsWith (s subS : WString) : Bool :=
  let sLen := s.length
  let subSLen := subS.length
  if sLen ≥ subSLen then
    decide (wcsicmp (s.drop (sLen - subSLen)) subS = 0)
  else
    false

/-- `FilePathToContainerFormatGuid`. -/
def FilePathToContainerFormatGuid (filePath : WString) : GUID :=
  if EndsWith filePath (L ".bmp") || EndsWith filePath (L ".dib") then
    GUID.GUID_ContainerFormatBmp
  else if EndsWith filePath (L ".png") then
    GUID.GUID_ContainerFormatPng
  else if EndsWith filePath (L ".ico") then
    GUID.GUID_ContainerFormatIco
  else if EndsWith filePath (L ".jpg") || EndsWith filePath (L ".jpeg")
      || EndsWith filePath (L ".jpe") then
    GUID.GUID_ContainerFormatJpeg
  else if EndsWith filePath (L ".tif") || EndsWith filePath (L ".tiff") then
    GUID.GUID_ContainerFormatTiff
  else if EndsWith filePath (L ".gif") then
    GUID.GUID_ContainerFormatGif
  else if EndsWith filePath (L ".dds") then
    GUID.GUID_ContainerFormatDds
  else if EndsWith filePath (L ".wmp") then
    GUID.GUID_ContainerFormatWmp
  else
    GUID.GUID_NULL

/-- `GpuResources::GetShaderCode`: the pair (`outCode_NoScaling0`, `outCode_NoScaling1`). -/
def GetShaderCode (params : LaunchParameters) : ShaderBlob × ShaderBlob :=
  -- When half-float format is used, conversion from/to linear is performed implicitly by WIC.
  if params.linear || params.fp16 then
    (ShaderBlob.NoScaling0_Linear1, ShaderBlob.NoScaling1_Linear1)
  else
    (ShaderBlob.NoScaling0_Linear0, ShaderBlob.NoScaling1_Linear0)

/-! ## Failures, events and runs -/

/-- Ways in which a function of the program stops early: one of the three
`std::runtime_error`s thrown by `ParseCommandLine`, the exception thrown by the
`CHECK_HR` or `CHECK_BOOL` statement starting on a given source line, or a failed
`assert` on a given source line (assertions are taken as enabled). -/
inductive Failure where
  | InvalidMode
  | UnknownCommandLineOption
  | InvalidCommandLineSyntax
  | CHECK_HR (line : Nat)
  | CHECK_BOOL (line : Nat)
  | assert (line : Nat)
deriving DecidableEq, Repr

/-- Whether a failure is a C++ exception (caught by `wmain`) rather than an abort. -/
def Failure.isException : Failure → Bool
  | Failure.assert _ => false
  | _ => true

/-- Observable actions: calls into the C runtime, COM, WIC and Direct3D, and the
entry into the two per-image pipelines. A call is recorded when it is made,
whether or not it succeeds. -/
inductive Event where
  | PrintCommandLineSyntax
  | fprintf_ERROR (e : Failure)
  | CoInitializeEx
  | CoUninitialize
  | CoCreateInstance
  | D3D11CreateDevice
  | CreateBuffer
  | CreateComputeShader (code : ShaderBlob)
  | wprintf_Loading (srcFilePath : WString)
  | CreateDecoderFromFilename (srcFilePath : WString)
  | GetFrame
  | GetSize
  | ProcessImageOnGpu (dstSize srcSize : uvec2) (dstFilePath : WString)
  | ProcessImageOnCpu (dstSize srcSize : uvec2) (dstFilePath : WString)
  | CreateFormatConverter
  | FormatConverter_Initialize (dstFormat : WICPixelFormatGUID)
  | CopyPixels (width height cbStride cbBufferSize vectorSize : Nat)
  | CreateTexture2D (format : DXGI_FORMAT) (width height : Nat) (line : Nat)
  | wprintf_WARNING
  | CreateShaderResourceView
  | CreateUnorderedAccessView
  | CasSetup (sharpness inputSizeInPixelsX inputSizeInPixelsY
      outputSizeInPixelsX outputSizeInPixelsY : float)
  | UpdateSubresource
  | CSSetShader (shader : ShaderBlob)
  | CSSetConstantBuffers
  | CSSetShaderResources
  | CSSetUnorderedAccessViews
  | Dispatch (x y z : Nat)
  | CopyResource
  | Map
  | CreateBitmapFromMemory (width height : Nat) (format : WICPixelFormatGUID)
      (cbStride cbBufferSize : Nat)
  | Unmap
  | CreateBitmapScaler
  | BitmapScaler_Initialize (width height : Nat) (mode : WICBitmapInterpolationMode)
  | wprintf_Saving (filePath : WString)
  | CreateStream
  | InitializeFromFilename (filePath : WString)
  | CreateEncoder (containerFormat : GUID)
  | Encoder_Initialize
  | CreateNewFrame
  | FrameEncode_Initialize
  | WriteSource
  | FrameEncode_Commit
  | Encoder_Commit
deriving DecidableEq, Repr

/-- A run of a function of the program: the events it produced, in order, and
either its result or the failure that ended it. -/
structure Run (α : Type) where
  trace : List Event
  result : Except Failure α

/-- Sequencing of runs: the second part runs only when the first returned. -/
def Run.bind {α β : Type} (r : Run α) (f : α → Run β) : Run β :=
  match r.result with
  | Except.error e => ⟨r.trace, Except.error e⟩
  | Except.ok a => ⟨r.trace ++ (f a).trace, (f a).result⟩

instance : Monad Run where
  pure a := ⟨[], Except.ok a⟩
  bind := Run.bind

/-- Performs one recorded action. -/
def emit (e : Event) : Run Unit := ⟨[e], Except.ok ()⟩

/-- Stops the run with a failure. -/
def fail {α : Type} (e : Failure) : Run α := ⟨[], Except.error e⟩

/-- The macro `CHECK_HR` around the call `e`, the statement starting on source
line `line`: the call is made and, if it did not succeed, an exception is thrown. -/
def CHECK_HR (hr : Nat → Bool) (line : Nat) (e : Event) : Run Unit :=
  ⟨[e], if hr line then Except.ok () else Except.error (Failure.CHECK_HR line)⟩

/-- The macro `CHECK_BOOL` on source line `line`. -/
def CHECK_BOOL (line : Nat) (expr : Bool) : Run Unit :=
  if expr then pure () else fail (Failure.CHECK_BOOL line)

/-- `InterpolationModeToWicInterpolationMode`; the `default` branch is `assert(0)`. -/
def InterpolationModeToWicInterpolationMode :
    InterpolationMode → Run WICBitmapInterpolationMode
  | InterpolationMode.NearestNeighbor => pure WICBitmapInterpolationMode.NearestNeighbor
  | InterpolationMode.Linear => pure WICBitmapInterpolationMode.Linear
  | InterpolationMode.Cubic => pure WICBitmapInterpolationMode.Cubic
  | InterpolationMode.HighQualityCubic => pure WICBitmapInterpolationMode.HighQualityCubic
  | InterpolationMode.Fant => pure WICBitmapInterpolationMode.Fant
  | _ => fail (Failure.assert 81)

instance instDecidableEqExcept {ε α : Type} [DecidableEq ε] [DecidableEq α] :
    DecidableEq (Except ε α)
  | Except.ok a, Except.ok b =>
    if h : a = b then isTrue (by rw [h]) else isFalse (fun h2 => h (by injection h2))
  | Except.error a, Except.error b =>
    if h : a = b then isTrue (by rw [h]) else isFalse (fun h2 => h (by injection h2))
  | Except.ok _, Except.error _ => isFalse (fun h => by cases h)
  | Except.error _, Except.ok _ => isFalse (fun h => by cases h)

/-! ## Command line -/

/-- The options loop of `LaunchParameters::ParseCommandLine` (lines 243-274), over
the arguments from index `i` on: returns the parameters and the arguments left
when the loop ends. `i + 1 < argCount` and `i + 2 < argCount` say that one,
respectively two, more arguments follow `args[i]`. The C runtime `_wtoi` is a
parameter. -/
def ParseOptions (wtoi : WString → Int) (self : LaunchParameters) :
    List WString → Except Failure (LaunchParameters × List WString)
  | [] => Except.ok (self, [])
  | arg :: rest =>
    if arg.head? = some 45 then
      match rest with
      | [] =>
        if arg = L "-Linear" then
          ParseOptions wtoi { self with linear := true } []
        else if arg = L "-FP16" then
          ParseOptions wtoi { self with fp16 := true } []
        else
          Except.error Failure.UnknownCommandLineOption
      | [a1] =>
        if arg = L "-Mode" then
          let mode := StrToInterpolationMode a1
          if mode = InterpolationMode.Count then Except.error Failure.InvalidMode
          else ParseOptions wtoi { self with interpolationMode := mode } []
        else if arg = L "-Linear" then
          ParseOptions wtoi { self with linear := true } [a1]
        else if arg = L "-FP16" then
          ParseOptions wtoi { self with fp16 := true } [a1]
        else if arg = L "-Sharpness" then
          ParseOptions wtoi { self with sharpness := float.of_wtof a1 } []
        else
          Except.error Failure.UnknownCommandLineOption
      | a1 :: a2 :: rest2 =>
        if arg = L "-Mode" then
          let mode := StrToInterpolationMode a1
          if mode = InterpolationMode.Count then Except.error Failure.InvalidMode
          else ParseOptions wtoi { self with interpolationMode := mode } (a2 :: rest2)
        else if arg = L "-Scale" then
          ParseOptions wtoi
            { self with dstSize := ⟨u32OfInt (wtoi a1), u32OfInt (wtoi a2)⟩ } rest2
        else if arg = L "-Linear" then
          ParseOptions wtoi { self with linear := true } (a1 :: a2 :: rest2)
        else if arg = L "-FP16" then
          ParseOptions wtoi { self with fp16 := true } (a1 :: a2 :: rest2)
        else if arg = L "-Sharpness" then
          ParseOptions wtoi { self with sharpness := float.of_wtof a1 } (a2 :: rest2)
        else
          Except.error Failure.UnknownCommandLineOption
    else
      Except.ok (self, arg :: rest)

/-- The file loop of `LaunchParameters::ParseCommandLine` (lines 281-287), run on
an even number of arguments: consecutive arguments form one `FileToProcess`. -/
def ParseFiles : List WString → List FileToProcess
  | src :: dst :: rest => ⟨src, dst⟩ :: ParseFiles rest
  | _ => []

/-- `LaunchParameters::ParseCommandLine`, on a default-initialised object: `args`
are the `argCount` arguments. -/
def ParseCommandLine (wtoi : WString → Int) (args : List WString) :
    Except Failure LaunchParameters :=
  match ParseOptions wtoi {} args with
  | Except.error e => Except.error e
  | Except.ok (self, rest) =>
    -- `(argCount - i) % 2`
    if rest.length % 2 ≠ 0 then
      Except.error Failure.InvalidCommandLineSyntax
    else
      Except.ok { self with filesToProcess := self.filesToProcess ++ ParseFiles rest }

/-! ## GPU resources -/

/-- The members of `GpuResources` the model tracks: each compute shader is
identified with the code it was created from. -/
structure GpuResources where
  m_CasComputeShader : ShaderBlob
  m_CasComputeShader_NoScaling : ShaderBlob
deriving DecidableEq, Repr

/-- The constructor `GpuResources::GpuResources`. -/
def GpuResources.new (hr : Nat → Bool) (params : LaunchParameters) : Run GpuResources := do
  CHECK_HR hr 295 Event.D3D11CreateDevice
  CHECK_HR hr 308 Event.CreateBuffer
  let shaderCode := GetShaderCode params
  CHECK_HR hr 318 (Event.CreateComputeShader shaderCode.1)
  CHECK_HR hr 320 (Event.CreateComputeShader shaderCode.2)
  pure ⟨shaderCode.1, shaderCode.2⟩

/-- `GpuResources::CAS`. -/
def GpuResources.CAS (self : GpuResources) (sharpness : float) (dstSize srcSize : uvec2) :
    Run Unit := do
  emit (Event.CasSetup sharpness (float.of_uint32 srcSize.x) (float.of_uint32 srcSize.y)
    (float.of_uint32 dstSize.x) (float.of_uint32 dstSize.y))
  emit Event.UpdateSubresource
  let noScaling : Bool := dstSize.x == srcSize.x && dstSize.y == srcSize.y
  let computeShader :=
    if noScaling then self.m_CasComputeShader_NoScaling else self.m_CasComputeShader
  emit (Event.CSSetShader computeShader)
  emit Event.CSSetConstantBuffers
  emit Event.CSSetShaderResources
  emit Event.CSSetUnorderedAccessViews
  emit (Event.Dispatch (CeilDiv dstSize.x 16) (CeilDiv dstSize.y 16) 1)

/-! ## Application -/

/-- What the outside world answers while one file is processed: which guarded
calls succeed, the size `GetSize` reports, the answer of `CasSupportScaling`
(a `float` computation of `ffx_cas.h`), and the `RowPitch` of the mapped texture. -/
structure FileEnv where
  hr : Nat → Bool
  srcSize : uvec2
  CasSupportScaling : Bool
  RowPitch : Nat

/-- The members of `Application` the model tracks; `m_GpuResources` is `none`
for a null `unique_ptr`. -/
structure Application where
  m_Params : LaunchParameters
  m_GpuResources : Option GpuResources
deriving DecidableEq, Repr

/-- The constructor `Application::Application`. -/
def Application.new (hr : Nat → Bool) (params : LaunchParameters) : Run Application := do
  CHECK_HR hr 373 Event.CoCreateInstance
  if InterpolationModeNeedsGpu params.interpolationMode then
    let gpu ← GpuResources.new hr params
    pure ⟨params, some gpu⟩
  else
    pure ⟨params, none⟩

/-- `Application::SaveFile`. -/
def SaveFile (env : FileEnv) (filePath : WString) : Run Unit := do
  emit (Event.wprintf_Saving filePath)
  CHECK_HR env.hr 525 Event.CreateStream
  CHECK_HR env.hr 526 (Event.InitializeFromFilename filePath)
  let containerFormatGuid := FilePathToContainerFormatGuid filePath
  CHECK_BOOL 530 (containerFormatGuid != GUID.GUID_NULL)
  CHECK_HR env.hr 531 (Event.CreateEncoder containerFormatGuid)
  CHECK_HR env.hr 532 Event.Encoder_Initialize
  CHECK_HR env.hr 536 Event.CreateNewFrame
  CHECK_HR env.hr 537 Event.FrameEncode_Initialize
  CHECK_HR env.hr 538 Event.WriteSource
  CHECK_HR env.hr 539 Event.FrameEncode_Commit
  CHECK_HR env.hr 540 Event.Encoder_Commit

/-- `Application::ProcessImageOnGpu`. -/
def ProcessImageOnGpu (self : Application) (env : FileEnv) (dstSize srcSize : uvec2)
    (dstFilePath : WString) : Run Unit := do
  emit (Event.ProcessImageOnGpu dstSize srcSize dstFilePath)
  match self.m_GpuResources with
  | none => fail (Failure.assert 423)
  | some gpu =>
    let gpuTexturePixelFormat :=
      if self.m_Params.fp16 then WICPixelFormatGUID.GUID_WICPixelFormat64bppRGBAHalf
      else WICPixelFormatGUID.GUID_WICPixelFormat32bppRGBA
    let rgbaBytesPerPixel : Nat := if self.m_Params.fp16 then 8 else 4
    CHECK_HR env.hr 432 Event.CreateFormatConverter
    CHECK_HR env.hr 433 (Event.FormatConverter_Initialize gpuTexturePixelFormat)
    let srcTextureRowStride := u32 (srcSize.x * rgbaBytesPerPixel)
    let srcTextureBufSize := u32 (srcSize.y * srcTextureRowStride)
    emit (Event.CopyPixels srcSize.x srcSize.y srcTextureRowStride
      (u32 (srcSize.y * srcTextureRowStride)) srcTextureBufSize)
    let d3dTextureFormat :=
      if self.m_Params.fp16 then DXGI_FORMAT.DXGI_FORMAT_R16G16B16A16_FLOAT
      else DXGI_FORMAT.DXGI_FORMAT_R8G8B8A8_UNORM
    CHECK_HR env.hr 452 (Event.CreateTexture2D d3dTextureFormat srcSize.x srcSize.y 452)
    if !env.CasSupportScaling then
      emit Event.wprintf_WARNING
    CHECK_HR env.hr 463 (Event.CreateTexture2D d3dTextureFormat dstSize.x dstSize.y 463)
    CHECK_HR env.hr 468 Event.CreateShaderResourceView
    CHECK_HR env.hr 473 Event.CreateUnorderedAccessView
    -- CAS !!!
    gpu.CAS self.m_Params.sharpness dstSize srcSize
    CHECK_HR env.hr 484 (Event.CreateTexture2D d3dTextureFormat dstSize.x dstSize.y 484)
    emit Event.CopyResource
    CHECK_HR env.hr 492 Event.Map
    CHECK_HR env.hr 495 (Event.CreateBitmapFromMemory dstSize.x dstSize.y gpuTexturePixelFormat
      env.RowPitch (u32 (env.RowPitch * dstSize.y)))
    emit Event.Unmap
    let dstFilePixelFormat := WICPixelFormatGUID.GUID_WICPixelFormat24bppBGR
    CHECK_HR env.hr 504 Event.CreateFormatConverter
    CHECK_HR env.hr 505 (Event.FormatConverter_Initialize dstFilePixelFormat)
    SaveFile env dstFilePath

/-- `Application::ProcessImageOnCpu`. -/
def ProcessImageOnCpu (self : Application) (env : FileEnv) (dstSize srcSize : uvec2)
    (dstFilePath : WString) : Run Unit := do
  emit (Event.ProcessImageOnCpu dstSize srcSize dstFilePath)
  CHECK_HR env.hr 513 Event.CreateBitmapScaler
  let mode ← InterpolationModeToWicInterpolationMode self.m_Params.interpolationMode
  CHECK_HR env.hr 514 (Event.BitmapScaler_Initialize dstSize.x dstSize.y mode)
  SaveFile env dstFilePath

/-- `Application::ProcessFile`. -/
def ProcessFile (self : Application) (env : FileEnv) (fileToProcess : FileToProcess) :
    Run Unit := do
  emit (Event.wprintf_Loading fileToProcess.srcFilePath)
  CHECK_HR env.hr 394 (Event.CreateDecoderFromFilename fileToProcess.srcFilePath)
  CHECK_HR env.hr 402 Event.GetFrame
  CHECK_HR env.hr 405 Event.GetSize
  let srcSize := env.srcSize
  let dstSize : uvec2 :=
    ⟨if self.m_Params.dstSize.x ≠ UINT32_MAX then self.m_Params.dstSize.x else srcSize.x,
     if self.m_Params.dstSize.y ≠ UINT32_MAX then self.m_Params.dstSize.y else srcSize.y⟩
  if InterpolationModeNeedsGpu self.m_Params.interpolationMode then
    ProcessImageOnGpu self env dstSize srcSize fileToProcess.dstFilePath
  else
    ProcessImageOnCpu self env dstSize srcSize fileToProcess.dstFilePath

/-- The loop of `Application::Process` over the files from position `k` on; the
file at position `j` is processed in the environment `envs j`. -/
def ProcessFrom (self : Application) (envs : Nat → FileEnv) (k : Nat) :
    List FileToProcess → Run Unit
  | [] => pure ()
  | file :: files => do
    ProcessFile self (envs k) file
    ProcessFrom self envs (k + 1) files

/-- `Application::Process`. -/
def Process (self : Application) (envs : Nat → FileEnv) : Run Unit :=
  ProcessFrom self envs 0 self.m_Params.filesToProcess

/-! ## Entry point -/

/-- What the outside world answers during one run of the program: which guarded
calls of the constructors succeed, and the environment of each processed file. -/
structure World where
  hr : Nat → Bool
  file : Nat → FileEnv

/-- How `wmain` ends: it returns a status, or the process is aborted by a failed
`assert`. -/
inductive ExitStatus where
  | returned (status : Int)
  | aborted
deriving DecidableEq, Repr

/-- The scope of `CoInitializeObj coInitializeObj`: the constructor runs first, the
destructor when the scope is left by return or by exception. -/
def withCoInitializeObj {α : Type} (body : Run α) : Run α :=
  match body.result with
  | Except.error (Failure.assert _) => ⟨Event.CoInitializeEx :: body.trace, body.result⟩
  | _ => ⟨Event.CoInitializeEx :: body.trace ++ [Event.CoUninitialize], body.result⟩

/-- The `try` block of `wmain` after the check of `argc`. -/
def wmainBody (wtoi : WString → Int) (world : World) (argv : List WString) : Run Unit :=
  match ParseCommandLine wtoi argv.tail with
  | Except.error e => fail e
  | Except.ok params =>
    withCoInitializeObj (do
      let app ← Application.new world.hr params
      Process app world.file)

/-- `wmain`: `argv` holds the `argc` arguments, the program name first. -/
def wmain (wtoi : WString → Int) (world : World) (argv : List WString) :
    List Event × ExitStatus :=
  if argv.length ≤ 1 then
    ([Event.PrintCommandLineSyntax], ExitStatus.returned 1)
  else
    let body := wmainBody wtoi world argv
    match body.result with
    | Except.ok _ => (body.trace, ExitStatus.returned 0)
    | Except.error (Failure.assert _) => (body.trace, ExitStatus.aborted)
    | Except.error e => (body.trace ++ [Event.fprintf_ERROR e], ExitStatus.returned (-1))

/-! ## Concrete inputs used in examples -/

/-- A conversion in the manner of `_wtoi` for the plain decimal strings used in
the examples: an optional `-`, then digits; anything else ends the number. -/
def wtoiDigits : Nat → WString → Nat
  | acc, c :: cs => if 48 ≤ c ∧ c ≤ 57 then wtoiDigits (acc * 10 + (c - 48)) cs else acc
  | acc, [] => acc

/-- See `wtoiDigits`; the result is clamped to the range of `int`. -/
def wtoiAscii (s : WString) : Int :=
  match s with
  | 45 :: cs => max (-(wtoiDigits 0 cs : Int)) (-2147483648)
  | cs => min (wtoiDigits 0 cs : Int) 2147483647

/-- The parameters parsed from `a.png b.png c.png d.png e.png f.png`. -/
def paramsThreeFiles : LaunchParameters :=
  { filesToProcess := [⟨L "a.png", L "b.png"⟩, ⟨L "c.png", L "d.png"⟩, ⟨L "e.png", L "f.png"⟩] }

/-- The application constructed from `paramsThreeFiles` when every call succeeds. -/
def appThreeFiles : Application :=
  ⟨paramsThreeFiles, some ⟨ShaderBlob.NoScaling0_Linear0, ShaderBlob.NoScaling1_Linear0⟩⟩

/-- A world in which every call succeeds, except that the second file (position
1) cannot be opened by the decoder. -/
def worldSecondFails : World :=
  ⟨fun _ => true,
   fun j => ⟨fun line => !(j == 1 && line == 394), ⟨100, 100⟩, true, 400⟩⟩

/-- A world in which every call succeeds, every source image is 100 x 100, and the
staging texture is mapped with rows padded to 256 bytes. -/
def worldPaddedRows : World :=
  ⟨fun _ => true, fun _ => ⟨fun _ => true, ⟨100, 100⟩, true, 256⟩⟩

/-- A world in which every call succeeds and every source image is 1073741824 x 1. -/
def worldWideSource : World :=
  ⟨fun _ => true, fun _ => ⟨fun _ => true, ⟨1073741824, 1⟩, true, 4⟩⟩

/-- The parameters parsed from `-FP16 -Scale 400 400 a.png b.png`. -/
def paramsFp16Scale : LaunchParameters :=
  { fp16 := true, dstSize := ⟨400, 400⟩, filesToProcess := [⟨L "a.png", L "b.png"⟩] }

/-- The parameters parsed from `-Mode Fant -Scale 7 9 a.png b.png`. -/
def paramsFantScale : LaunchParameters :=
  { interpolationMode := InterpolationMode.Fant, dstSize := ⟨7, 9⟩,
    filesToProcess := [⟨L "a.png", L "b.png"⟩] }

/-- The parameters parsed from `-Mode Cubic a.png b.png`. -/
def paramsCubic : LaunchParameters :=
  { interpolationMode := InterpolationMode.Cubic, filesToProcess := [⟨L "a.png", L "b.png"⟩] }

/-- A world in which every call succeeds and every source image is 100 x 100. -/
def worldOk : World :=
  ⟨fun _ => true, fun _ => ⟨fun _ => true, ⟨100, 100⟩, true, 400⟩⟩

/-- The value of the macro `NoScaling` a shader array was compiled with, as the
name of its header and namespace says. -/
def ShaderBlob.NoScaling : ShaderBlob → Bool
  | ShaderBlob.NoScaling1_Linear0 => true
  | ShaderBlob.NoScaling1_Linear1 => true
  | _ => false

/-! ## Auxiliary definitions -/

/-- One pass through the body of the options loop of `ParseCommandLine` (lines
245-273) at an argument `arg` that is followed by the arguments `rest`: the
updated parameters and the arguments after the ones consumed. Used to reason
about `ParseOptions`, which is shown to iterate it. -/
def OptionStep (wtoi : WString → Int) (self : LaunchParameters) (arg : WString)
    (rest : List WString) : Except Failure (LaunchParameters × List WString) :=
  if arg = L "-Mode" ∧ 1 ≤ rest.length then
    if StrToInterpolationMode (rest.headD []) = InterpolationMode.Count then
      Except.error Failure.InvalidMode
    else
      Except.ok ({ self with interpolationMode := StrToInterpolationMode (rest.headD []) },
        rest.tail)
  else if arg = L "-Scale" ∧ 2 ≤ rest.length then
    Except.ok ({ self with dstSize :=
      ⟨u32OfInt (wtoi (rest.headD [])), u32OfInt (wtoi (rest.tail.headD []))⟩ }, rest.tail.tail)
  else if arg = L "-Linear" then
    Except.ok ({ self with linear := true }, rest)
  else if arg = L "-FP16" then
    Except.ok ({ self with fp16 := true }, rest)
  else if arg = L "-Sharpness" ∧ 1 ≤ rest.length then
    Except.ok ({ self with sharpness := float.of_wtof (rest.headD []) }, rest.tail)
  else
    Except.error Failure.UnknownCommandLineOption

/-- Whether an event is the entry into one of the two per-image pipelines. -/
def Event.isEntry : Event → Bool
  | Event.ProcessImageOnGpu _ _ _ => true
  | Event.ProcessImageOnCpu _ _ _ => true
  | _ => false

/-- Whether a run was ended by a failed `assert`. -/
def Run.isAbort {α : Type} (r : Run α) : Bool :=
  match r.result with
  | Except.error (Failure.assert _) => true
  | _ => false

/-! ## Specification-side definitions -/

/-- The bytes per pixel of the active working format, in the words of the
specification: 4 (32-bit RGBA) without `fp16`, 8 (64-bit half-float RGBA) with it. -/
def bytesPerPixel (fp16 : Bool) : Nat := if fp16 then 8 else 4

/-- The events of processing each file of a list exactly once, in list order, the
file at position `j` (counted from `k`) in the environment `envs j`. -/
def runsInOrder (self : Application) (envs : Nat → FileEnv) (k : Nat) :
    List FileToProcess → List Event
  | [] => []
  | file :: files =>
    (ProcessFile self (envs k) file).trace ++ runsInOrder self envs (k + 1) files


/-- The extension of a path, in the words of the specification: the part of the
path from its last `.` (code unit 46) on, the dot included; empty when the path
has no dot. -/
def extensionOf : WString → WString
  | [] => []
  | c :: cs =>
    if extensionOf cs ≠ [] then extensionOf cs
    else if c = 46 then c :: cs
    else []

/-- The container format of a lower-cased extension, in the words of the
specification: the table of section 6, and `GUID_NULL` for any other extension. -/
def specContainerFormat (ext : WString) : GUID :=
  if ext = L ".bmp" ∨ ext = L ".dib" then GUID.GUID_ContainerFormatBmp
  else if ext = L ".png" then GUID.GUID_ContainerFormatPng
  else if ext = L ".ico" then GUID.GUID_ContainerFormatIco
  else if ext = L ".jpg" ∨ ext = L ".jpeg" ∨ ext = L ".jpe" then
    GUID.GUID_ContainerFormatJpeg
  else if ext = L ".tif" ∨ ext = L ".tiff" then GUID.GUID_ContainerFormatTiff
  else if ext = L ".gif" then GUID.GUID_ContainerFormatGif
  else if ext = L ".dds" then GUID.GUID_ContainerFormatDds
  else if ext = L ".wmp" then GUID.GUID_ContainerFormatWmp
  else GUID.GUID_NULL

/-- Whether two code units are the same up to the case of a letter, in the words
of the specification ("case-insensitively"): they are equal, or one of them is
an upper-case letter `A`..`Z` (65..90) and the other is the lower-case letter 32
above it. -/
def sameIgnoringCase (a b : Nat) : Bool :=
  a == b || (decide (65 ≤ a ∧ a ≤ 90) && b == a + 32) ||
    (decide (65 ≤ b ∧ b ≤ 90) && a == b + 32)

/-- Whether two strings have the same length and agree, position by position, up
to the case of letters. -/
def equalsIgnoringCase : WString → WString → Bool
  | [], [] => true
  | a :: as, b :: bs => sameIgnoringCase a b && equalsIgnoringCase as bs
  | _, _ => false

/-- The container format of an extension compared case-insensitively, in the
words of the specification: `.bmp`/`.dib` is Bitmap, `.png` PNG, `.ico` Icon,
`.jpg`/`.jpeg`/`.jpe` JPEG, `.tif`/`.tiff` TIFF, `.gif` GIF, `.dds` DDS, `.wmp` WMP,
and any other extension has none (`GUID_NULL`). -/
def containerFormatOfExtension (ext : WString) : GUID :=
  if equalsIgnoringCase ext (L ".bmp") || equalsIgnoringCase ext (L ".dib") then
    GUID.GUID_ContainerFormatBmp
  else if equalsIgnoringCase ext (L ".png") then GUID.GUID_ContainerFormatPng
  else if equalsIgnoringCase ext (L ".ico") then GUID.GUID_ContainerFormatIco
  else if equalsIgnoringCase ext (L ".jpg") || equalsIgnoringCase ext (L ".jpeg")
      || equalsIgnoringCase ext (L ".jpe") then
    GUID.GUID_ContainerFormatJpeg
  else if equalsIgnoringCase ext (L ".tif") || equalsIgnoringCase ext (L ".tiff") then
    GUID.GUID_ContainerFormatTiff
  else if equalsIgnoringCase ext (L ".gif") then GUID.GUID_ContainerFormatGif
  else if equalsIgnoringCase ext (L ".dds") then GUID.GUID_ContainerFormatDds
  else if equalsIgnoringCase ext (L ".wmp") then GUID.GUID_ContainerFormatWmp
  else GUID.GUID_NULL

/-- The `-Scale <W> <H>` option that a command line gives, read off the option
syntax of the specification (section 6): the options come first, `-Scale` takes
two values, `-Mode` and `-Sharpness` one, `-FP16` and `-Linear` none, and the
first argument that is none of these ends the options. When `-Scale` is given
more than once the last one counts; `none` when it is not given. -/
def scaleGiven : List WString → Option (WString × WString)
  | [] => none
  | arg :: rest =>
    if arg = L "-Scale" then
      match rest with
      | w :: h :: rest2 =>
        match scaleGiven rest2 with
        | some later => some later
        | none => some (w, h)
      | _ => none
    else if arg = L "-Mode" ∨ arg = L "-Sharpness" then
      match rest with
      | _ :: rest1 => scaleGiven rest1
      | [] => none
    else if arg = L "-Linear" ∨ arg = L "-FP16" then scaleGiven rest
    else none

/-- The destination size a given `-Scale <W> <H>` stands for, each value converted
by `_wtoi` and to `uint32_t`; `unset` when no `-Scale` is given. -/
def dstSizeOfScale (wtoi : WString → Int) (unset : uvec2) :
    Option (WString × WString) → uvec2
  | none => unset
  | some (w, h) => ⟨u32OfInt (wtoi w), u32OfInt (wtoi h)⟩

/-! ## Lemmas on runs -/

theorem Run.bind_eq {α β : Type} (r : Run α) (f : α → Run β) : (r >>= f) = Run.bind r f := rfl

theorem Run.pure_eq {α : Type} (a : α) : (pure a : Run α) = ⟨[], Except.ok a⟩ := rfl

theorem Run.bind_ok {α β : Type} (t : List Event) (a : α) (f : α → Run β) :
    Run.bind ⟨t, Except.ok a⟩ f = ⟨t ++ (f a).trace, (f a).result⟩ := rfl

theorem Run.bind_error {α β : Type} (t : List Event) (e : Failure) (f : α → Run β) :
    Run.bind ⟨t, Except.error e⟩ f = ⟨t, Except.error e⟩ := rfl

theorem Run.bind_emit {β : Type} (e : Event) (f : Unit → Run β) :
    Run.bind (emit e) f = ⟨e :: (f ()).trace, (f ()).result⟩ := rfl

theorem Run.bind_CHECK_HR {β : Type} (hr : Nat → Bool) (line : Nat) (e : Event)
    (f : Unit → Run β) :
    Run.bind (CHECK_HR hr line e) f =
      if hr line then ⟨e :: (f ()).trace, (f ()).result⟩
      else ⟨[e], Except.error (Failure.CHECK_HR line)⟩ := by
  unfold Run.bind CHECK_HR
  cases hr line <;> simp

theorem Run.trace_bind_CHECK_HR {β : Type} (hr : Nat → Bool) (line : Nat) (e : Event)
    (f : Unit → Run β) :
    (Run.bind (CHECK_HR hr line e) f).trace = e :: (if hr line then (f ()).trace else []) := by
  rw [Run.bind_CHECK_HR]
  cases hr line <;> simp

theorem Run.result_bind_CHECK_HR {β : Type} (hr : Nat → Bool) (line : Nat) (e : Event)
    (f : Unit → Run β) :
    (Run.bind (CHECK_HR hr line e) f).result =
      if hr line then (f ()).result else Except.error (Failure.CHECK_HR line) := by
  rw [Run.bind_CHECK_HR]
  cases hr line <;> simp

theorem Run.trace_bind_emit {β : Type} (e : Event) (f : Unit → Run β) :
    (Run.bind (emit e) f).trace = e :: (f ()).trace := rfl

theorem Run.result_bind_emit {β : Type} (e : Event) (f : Unit → Run β) :
    (Run.bind (emit e) f).result = (f ()).result := rfl

theorem CHECK_HR_trace (hr : Nat → Bool) (line : Nat) (e : Event) :
    (CHECK_HR hr line e).trace = [e] := rfl

theorem mem_ite_nil {α : Type} (c : Prop) [Decidable c] (a : α) (l : List α) :
    a ∈ (if c then l else []) ↔ c ∧ a ∈ l := by
  by_cases h : c <;> simp [h]

/-! ## Kernel selection and dispatch grid -/

/-- C1: in `GpuResources::CAS`, on resources made by the constructor, exactly one
compute shader is bound, and it is the no-scaling kernel (the member
`m_CasComputeShader_NoScaling`, compiled with `NoScaling=1`) if and only if the
destination size equals the source size in both dimensions; otherwise it is the
general scaling kernel (`m_CasComputeShader`, compiled with `NoScaling=0`). -/
theorem CAS_binds_noScaling_iff_same_size (hr : Nat → Bool) (params : LaunchParameters)
    (gpu : GpuResources) (hgpu : (GpuResources.new hr params).result = Except.ok gpu)
    (sharpness : float) (dstSize srcSize : uvec2) :
    ∃ shader : ShaderBlob,
      (∀ s, Event.CSSetShader s ∈ (gpu.CAS sharpness dstSize srcSize).trace ↔ s = shader) ∧
      ((shader = gpu.m_CasComputeShader_NoScaling ∧ shader.NoScaling = true) ↔
        (dstSize.x = srcSize.x ∧ dstSize.y = srcSize.y)) ∧
      ((shader = gpu.m_CasComputeShader ∧ shader.NoScaling = false) ↔
        ¬ (dstSize.x = srcSize.x ∧ dstSize.y = srcSize.y)) := by
  have hmembers : gpu.m_CasComputeShader.NoScaling = false ∧
      gpu.m_CasComputeShader_NoScaling.NoScaling = true := by
    simp only [GpuResources.new, Run.bind_eq, Run.bind_CHECK_HR, Run.pure_eq] at hgpu
    cases h1 : hr 295 <;> cases h2 : hr 308 <;> cases h3 : hr 318 <;> cases h4 : hr 320 <;>
      simp [h1, h2, h3, h4] at hgpu
    subst hgpu
    simp only [GetShaderCode]
    cases params.linear <;> cases params.fp16 <;> simp [ShaderBlob.NoScaling]
  obtain ⟨h0, h1⟩ := hmembers
  have hne : gpu.m_CasComputeShader_NoScaling ≠ gpu.m_CasComputeShader := by
    intro h
    rw [h, h0] at h1
    exact Bool.noConfusion h1
  by_cases hsame : dstSize.x = srcSize.x ∧ dstSize.y = srcSize.y
  · refine ⟨gpu.m_CasComputeShader_NoScaling, ?_, ?_, ?_⟩
    · intro s
      simp [GpuResources.CAS, Run.bind_eq, Run.bind_ok, emit, hsame, eq_comm]
    · simp [hsame, h1]
    · simp [hsame, hne]
  · refine ⟨gpu.m_CasComputeShader, ?_, ?_, ?_⟩
    · intro s
      have hb : (dstSize.x == srcSize.x && dstSize.y == srcSize.y) = false := by
        simpa using hsame
      simp [GpuResources.CAS, Run.bind_eq, Run.bind_ok, emit, hb, eq_comm]
    · simp [hsame, Ne.symm hne]
    · simp [hsame, h0]

/-- Witness for C1: resources made with every call succeeding. -/
theorem CAS_binds_noScaling_iff_same_size_witness :
    ∃ shader : ShaderBlob,
      (∀ s, Event.CSSetShader s ∈
        (GpuResources.CAS ⟨ShaderBlob.NoScaling0_Linear0, ShaderBlob.NoScaling1_Linear0⟩
          float.zero ⟨50, 50⟩ ⟨100, 100⟩).trace ↔ s = shader) ∧
      ((shader = ShaderBlob.NoScaling1_Linear0 ∧ shader.NoScaling = true) ↔
        ((50 : Nat) = 100 ∧ (50 : Nat) = 100)) ∧
      ((shader = ShaderBlob.NoScaling0_Linear0 ∧ shader.NoScaling = false) ↔
        ¬ ((50 : Nat) = 100 ∧ (50 : Nat) = 100)) :=
  CAS_binds_noScaling_iff_same_size (fun _ => true) {}
    ⟨ShaderBlob.NoScaling0_Linear0, ShaderBlob.NoScaling1_Linear0⟩ rfl
    float.zero ⟨50, 50⟩ ⟨100, 100⟩

theorem ceil_div_sixteen (x : Nat) : ⌈(x : ℚ) / 16⌉₊ = (x + 15) / 16 := by
  apply le_antisymm
  · rw [Nat.ceil_le, div_le_iff₀ (by norm_num)]
    have h : x ≤ (x + 15) / 16 * 16 := by omega
    exact_mod_cast h
  · by_contra hlt
    push_neg at hlt
    have h1 : (x : ℚ) / 16 ≤ (⌈(x : ℚ) / 16⌉₊ : ℚ) := Nat.le_ceil _
    rw [div_le_iff₀ (by norm_num)] at h1
    have h2 : x ≤ ⌈(x : ℚ) / 16⌉₊ * 16 := by exact_mod_cast h1
    omega

theorem CeilDiv_sixteen_of_le (x : Nat) (h : x ≤ 4294967280) :
    CeilDiv x 16 = (x + 15) / 16 := by
  unfold CeilDiv u32
  omega

theorem CAS_Dispatch_mem (self : GpuResources) (sharpness : float) (dstSize srcSize : uvec2)
    (x y z : Nat) :
    Event.Dispatch x y z ∈ (self.CAS sharpness dstSize srcSize).trace ↔
      (x = CeilDiv dstSize.x 16 ∧ y = CeilDiv dstSize.y 16 ∧ z = 1) := by
  simp [GpuResources.CAS, Run.bind_eq, Run.bind_ok, emit]

/-- C2 (as amended): for destination sizes with `dstWidth ≤ 2^32 - 16` and
`dstHeight ≤ 2^32 - 16`, the thread-group counts that `GpuResources::CAS` passes
to `Dispatch` are `(⌈dstWidth/16⌉, ⌈dstHeight/16⌉, 1)` as mathematical integers,
and no other `Dispatch` is made. -/
theorem CAS_dispatch_grid_eq_ceil (self : GpuResources) (sharpness : float)
    (dstSize srcSize : uvec2) (hx : dstSize.x ≤ 4294967280) (hy : dstSize.y ≤ 4294967280)
    (x y z : Nat) :
    Event.Dispatch x y z ∈ (self.CAS sharpness dstSize srcSize).trace ↔
      (x = ⌈(dstSize.x : ℚ) / 16⌉₊ ∧ y = ⌈(dstSize.y : ℚ) / 16⌉₊ ∧ z = 1) := by
  rw [CAS_Dispatch_mem, CeilDiv_sixteen_of_le _ hx, CeilDiv_sixteen_of_le _ hy,
    ceil_div_sixteen, ceil_div_sixteen]

/-- Witness for C2 (as amended): a 50 x 50 destination is dispatched as (4, 4, 1). -/
theorem CAS_dispatch_grid_eq_ceil_witness :
    ((50 : Nat) ≤ 4294967280 ∧ ⌈((50 : Nat) : ℚ) / 16⌉₊ = 4) ∧
    (Event.Dispatch 4 4 1 ∈
      (GpuResources.CAS ⟨ShaderBlob.NoScaling0_Linear0, ShaderBlob.NoScaling1_Linear0⟩
        float.zero ⟨50, 50⟩ ⟨100, 100⟩).trace ↔
      (4 = ⌈((50 : Nat) : ℚ) / 16⌉₊ ∧ 4 = ⌈((50 : Nat) : ℚ) / 16⌉₊ ∧ 1 = 1)) :=
  ⟨⟨by decide, by rw [ceil_div_sixteen]⟩,
    CAS_dispatch_grid_eq_ceil ⟨ShaderBlob.NoScaling0_Linear0, ShaderBlob.NoScaling1_Linear0⟩
      float.zero ⟨50, 50⟩ ⟨100, 100⟩ (by decide) (by decide) 4 4 1⟩

/-- C2 fails as stated: for the positive 32-bit destination size
4294967290 x 4294967290 the sum `x + 16 - 1` wraps, `Dispatch(0, 0, 1)` is called,
and the ceiling `⌈4294967290/16⌉ = 268435456` is not what is passed. -/
theorem CAS_dispatch_grid_counterexample :
    (0 < 4294967290 ∧ 4294967290 < 2 ^ 32) ∧
    ⌈((4294967290 : Nat) : ℚ) / 16⌉₊ = 268435456 ∧
    Event.Dispatch 0 0 1 ∈
      (GpuResources.CAS ⟨ShaderBlob.NoScaling0_Linear0, ShaderBlob.NoScaling1_Linear0⟩
        float.zero ⟨4294967290, 4294967290⟩ ⟨100, 100⟩).trace ∧
    Event.Dispatch ⌈((4294967290 : Nat) : ℚ) / 16⌉₊ ⌈((4294967290 : Nat) : ℚ) / 16⌉₊ 1 ∉
      (GpuResources.CAS ⟨ShaderBlob.NoScaling0_Linear0, ShaderBlob.NoScaling1_Linear0⟩
        float.zero ⟨4294967290, 4294967290⟩ ⟨100, 100⟩).trace := by
  refine ⟨by decide, by rw [ceil_div_sixteen], ?_, ?_⟩
  · rw [CAS_Dispatch_mem]; decide
  · rw [CAS_Dispatch_mem, ceil_div_sixteen]; decide

/-! ## Shader code selection -/

/-- C3: `GpuResources::GetShaderCode` returns the linear-colour pair
(`NoScaling0_Linear1` for the scaling kernel, `NoScaling1_Linear1` for the
no-scaling kernel) whenever `params.fp16` is set, whatever `params.linear` is, so
that with `fp16` set the pair does not depend on `linear`; and the
display-encoded pair (`Linear0`) is returned exactly when both flags are unset. -/
theorem GetShaderCode_fp16_forces_linear (params : LaunchParameters) :
    (params.fp16 = true →
      GetShaderCode params = (ShaderBlob.NoScaling0_Linear1, ShaderBlob.NoScaling1_Linear1) ∧
      ∀ linear : Bool, GetShaderCode { params with linear := linear } = GetShaderCode params) ∧
    (GetShaderCode params = (ShaderBlob.NoScaling0_Linear0, ShaderBlob.NoScaling1_Linear0) ↔
      (params.fp16 = false ∧ params.linear = false)) ∧
    (GetShaderCode params = (ShaderBlob.NoScaling0_Linear1, ShaderBlob.NoScaling1_Linear1) ∨
      GetShaderCode params = (ShaderBlob.NoScaling0_Linear0, ShaderBlob.NoScaling1_Linear0)) := by
  unfold GetShaderCode
  cases hl : params.linear <;> cases hf : params.fp16 <;> simp

/-- Witness for C3: `-FP16` without `-Linear`. -/
theorem GetShaderCode_fp16_forces_linear_witness :
    (({ fp16 := true } : LaunchParameters).fp16 = true ∧
      ({ fp16 := true } : LaunchParameters).linear = false) ∧
    GetShaderCode { fp16 := true } =
      (ShaderBlob.NoScaling0_Linear1, ShaderBlob.NoScaling1_Linear1) :=
  ⟨⟨rfl, rfl⟩, ((GetShaderCode_fp16_forces_linear { fp16 := true }).1 rfl).1⟩

/-! ## Container format of the destination file -/

theorem towlower_eq_dot (c : Nat) : towlower c = 46 ↔ c = 46 := by
  unfold towlower
  split <;> omega

theorem wcsicmp_eq_zero_iff (a b : WString) (h : a.length = b.length) :
    wcsicmp a b = 0 ↔ a.map towlower = b.map towlower := by
  induction a generalizing b with
  | nil =>
    cases b with
    | nil => simp [wcsicmp]
    | cons y ys => simp at h
  | cons x xs ih =>
    cases b with
    | nil => simp at h
    | cons y ys =>
      have hlen : xs.length = ys.length := by simpa using h
      by_cases hxy : towlower x = towlower y
      · simp [wcsicmp, hxy, ih ys hlen]
      · have hne : (towlower x : Int) - (towlower y : Int) ≠ 0 := by omega
        simp [wcsicmp, hxy, hne]

theorem EndsWith_iff_suffix (s subS : WString) :
    EndsWith s subS = true ↔ subS.map towlower <:+ s.map towlower := by
  unfold EndsWith
  by_cases h : subS.length ≤ s.length
  · have hlen : (s.drop (s.length - subS.length)).length = subS.length := by
      rw [List.length_drop]; omega
    simp only [ge_iff_le, h, if_true, decide_eq_true_eq]
    rw [wcsicmp_eq_zero_iff _ _ hlen, List.suffix_iff_eq_drop, List.map_drop,
      List.length_map, List.length_map]
    exact eq_comm
  · simp only [ge_iff_le, h, if_false]
    constructor
    · intro hf
      exact absurd hf (by simp)
    · intro hsuf
      have := hsuf.length_le
      simp only [List.length_map] at this
      exact absurd this h

theorem extensionOf_suffix (l : WString) : extensionOf l <:+ l := by
  induction l with
  | nil => simp [extensionOf]
  | cons c cs ih =>
    unfold extensionOf
    split
    · exact ih.trans (List.suffix_cons c cs)
    · split
      · exact List.suffix_refl _
      · exact List.nil_suffix

theorem extensionOf_eq_nil_iff (l : WString) : extensionOf l = [] ↔ 46 ∉ l := by
  induction l with
  | nil => simp [extensionOf]
  | cons c cs ih =>
    unfold extensionOf
    by_cases h : extensionOf cs = []
    · have hn : 46 ∉ cs := ih.1 h
      by_cases hc : c = 46
      · simp [h, hc]
      · simp [h, hc, hn, Ne.symm hc]
    · have hn : ¬ (46 ∉ cs) := fun hh => h (ih.2 hh)
      have hm : 46 ∈ cs := by simpa using hn
      simp [h, hm]

theorem dot_suffix_iff_extensionOf (l t : WString) (ht : 46 ∉ t) :
    (46 :: t) <:+ l ↔ extensionOf l = 46 :: t := by
  constructor
  · intro hsuf
    induction l with
    | nil => simp at hsuf
    | cons c cs ih =>
      rw [List.suffix_cons_iff] at hsuf
      unfold extensionOf
      rcases hsuf with heq | hsuf
      · have hc : c = 46 := by
          have := congrArg List.head? heq
          simpa using this.symm
        have hcs : cs = t := by
          have := congrArg List.tail heq
          simpa using this.symm
        subst hcs
        have hnil : extensionOf cs = [] := (extensionOf_eq_nil_iff cs).2 ht
        simp [hnil, hc]
      · have h1 := ih hsuf
        simp [h1]
  · intro h
    rw [← h]
    exact extensionOf_suffix l

theorem extensionOf_map_towlower (l : WString) :
    extensionOf (l.map towlower) = (extensionOf l).map towlower := by
  induction l with
  | nil => simp [extensionOf]
  | cons c cs ih =>
    simp only [List.map_cons]
    unfold extensionOf
    rw [ih]
    by_cases h : extensionOf cs = []
    · by_cases hc : c = 46
      · simp [h, hc, towlower]
      · have hc2 : ¬ towlower c = 46 := fun hh => hc ((towlower_eq_dot c).1 hh)
        simp [h, hc, hc2]
    · simp [h]

/-- For a literal extension `ext` (a dot, then dot-free lower-case code units),
`EndsWith` decides whether the lower-cased extension of the path is `ext`. -/
theorem EndsWith_eq_decide_extension (s ext : WString) (hhead : ext.head? = some 46)
    (htail : 46 ∉ ext.tail) (hlower : ext.map towlower = ext) :
    EndsWith s ext = decide ((extensionOf s).map towlower = ext) := by
  cases ext with
  | nil => simp at hhead
  | cons d t =>
    have hd : d = 46 := by simpa using hhead
    subst hd
    have ht : (46 : Nat) ∉ t := by simpa using htail
    rw [Bool.eq_iff_iff, EndsWith_iff_suffix, hlower, dot_suffix_iff_extensionOf _ _ ht,
      extensionOf_map_towlower]
    simp

theorem FilePathToContainerFormatGuid_eq_specContainerFormat (filePath : WString) :
    FilePathToContainerFormatGuid filePath =
      specContainerFormat ((extensionOf filePath).map towlower) := by
  unfold FilePathToContainerFormatGuid specContainerFormat
  rw [EndsWith_eq_decide_extension filePath (L ".bmp") (by decide) (by decide) (by decide),
    EndsWith_eq_decide_extension filePath (L ".dib") (by decide) (by decide) (by decide),
    EndsWith_eq_decide_extension filePath (L ".png") (by decide) (by decide) (by decide),
    EndsWith_eq_decide_extension filePath (L ".ico") (by decide) (by decide) (by decide),
    EndsWith_eq_decide_extension filePath (L ".jpg") (by decide) (by decide) (by decide),
    EndsWith_eq_decide_extension filePath (L ".jpeg") (by decide) (by decide) (by decide),
    EndsWith_eq_decide_extension filePath (L ".jpe") (by decide) (by decide) (by decide),
    EndsWith_eq_decide_extension filePath (L ".tif") (by decide) (by decide) (by decide),
    EndsWith_eq_decide_extension filePath (L ".tiff") (by decide) (by decide) (by decide),
    EndsWith_eq_decide_extension filePath (L ".gif") (by decide) (by decide) (by decide),
    EndsWith_eq_decide_extension filePath (L ".dds") (by decide) (by decide) (by decide),
    EndsWith_eq_decide_extension filePath (L ".wmp") (by decide) (by decide) (by decide)]
  simp only [Bool.or_eq_true, decide_eq_true_eq, or_assoc]

theorem sameIgnoringCase_iff (a b : Nat) :
    sameIgnoringCase a b = true ↔ towlower a = towlower b := by
  unfold sameIgnoringCase towlower
  simp only [Bool.or_eq_true, Bool.and_eq_true, beq_iff_eq, decide_eq_true_eq]
  split_ifs <;> omega

theorem equalsIgnoringCase_iff (a b : WString) :
    equalsIgnoringCase a b = true ↔ a.map towlower = b.map towlower := by
  induction a generalizing b with
  | nil => cases b <;> simp [equalsIgnoringCase]
  | cons x xs ih =>
    cases b with
    | nil => simp [equalsIgnoringCase]
    | cons y ys => simp [equalsIgnoringCase, sameIgnoringCase_iff, ih]

theorem equalsIgnoringCase_eq_decide (ext e : WString) (hlower : e.map towlower = e) :
    equalsIgnoringCase ext e = decide (ext.map towlower = e) := by
  rw [Bool.eq_iff_iff, equalsIgnoringCase_iff, hlower]
  simp

theorem containerFormatOfExtension_eq (ext : WString) :
    containerFormatOfExtension ext = specContainerFormat (ext.map towlower) := by
  unfold containerFormatOfExtension specContainerFormat
  rw [equalsIgnoringCase_eq_decide ext (L ".bmp") (by decide),
    equalsIgnoringCase_eq_decide ext (L ".dib") (by decide),
    equalsIgnoringCase_eq_decide ext (L ".png") (by decide),
    equalsIgnoringCase_eq_decide ext (L ".ico") (by decide),
    equalsIgnoringCase_eq_decide ext (L ".jpg") (by decide),
    equalsIgnoringCase_eq_decide ext (L ".jpeg") (by decide),
    equalsIgnoringCase_eq_decide ext (L ".jpe") (by decide),
    equalsIgnoringCase_eq_decide ext (L ".tif") (by decide),
    equalsIgnoringCase_eq_decide ext (L ".tiff") (by decide),
    equalsIgnoringCase_eq_decide ext (L ".gif") (by decide),
    equalsIgnoringCase_eq_decide ext (L ".dds") (by decide),
    equalsIgnoringCase_eq_decide ext (L ".wmp") (by decide)]
  simp only [Bool.or_eq_true, decide_eq_true_eq, or_assoc]

/-- C4: for every destination path, `FilePathToContainerFormatGuid` is the table
of the specification applied to the path's extension compared case-insensitively
(`.bmp`/`.dib` to Bmp, `.png` to Png, `.ico` to Ico, `.jpg`/`.jpeg`/`.jpe` to Jpeg,
`.tif`/`.tiff` to Tiff, `.gif` to Gif, `.dds` to Dds, `.wmp` to Wmp, anything else
to `GUID_NULL`), where case-insensitive comparison is the specification's own
(`equalsIgnoringCase`), not the code's lower-casing; and for a path with any
other extension `SaveFile` fails with an exception without calling
`CreateEncoder`: the one thrown by `CHECK_BOOL` on line 530 once the stream has
been opened. For a supported extension and an opened stream, `CreateEncoder` is
called with the mapped format. -/
theorem SaveFile_container_format_of_extension (filePath : WString) (env : FileEnv) :
    FilePathToContainerFormatGuid filePath =
      containerFormatOfExtension (extensionOf filePath) ∧
    (containerFormatOfExtension (extensionOf filePath) = GUID.GUID_NULL →
      (∀ g, Event.CreateEncoder g ∉ (SaveFile env filePath).trace) ∧
      ((SaveFile env filePath).result = Except.error (Failure.CHECK_HR 525) ∨
        (SaveFile env filePath).result = Except.error (Failure.CHECK_HR 526) ∨
        (SaveFile env filePath).result = Except.error (Failure.CHECK_BOOL 530)) ∧
      (env.hr 525 = true → env.hr 526 = true →
        (SaveFile env filePath).result = Except.error (Failure.CHECK_BOOL 530))) ∧
    (containerFormatOfExtension (extensionOf filePath) ≠ GUID.GUID_NULL →
      env.hr 525 = true → env.hr 526 = true →
      ∀ g, Event.CreateEncoder g ∈ (SaveFile env filePath).trace ↔
        g = containerFormatOfExtension (extensionOf filePath)) := by
  have hspec : FilePathToContainerFormatGuid filePath =
      containerFormatOfExtension (extensionOf filePath) := by
    rw [containerFormatOfExtension_eq]
    exact FilePathToContainerFormatGuid_eq_specContainerFormat filePath
  refine ⟨hspec, ?_, ?_⟩
  · intro hnull
    rw [← hspec] at hnull
    cases h1 : env.hr 525 <;> cases h2 : env.hr 526 <;>
      simp [SaveFile, Run.bind_eq, Run.bind_CHECK_HR, Run.bind_emit, CHECK_BOOL, fail,
        Run.bind_error, h1, h2, hnull]
  · intro hsupp h1 h2 g
    rw [← hspec] at hsupp ⊢
    simp [SaveFile, Run.bind_eq, Run.trace_bind_CHECK_HR, Run.trace_bind_emit, CHECK_BOOL,
      Run.pure_eq, Run.bind_ok, CHECK_HR_trace, mem_ite_nil, h1, h2, hsupp]

/-- Witness for C4: the upper-case extension of `PHOTO.JPE` and the mixed-case one
of `a.TiFf` are mapped to Jpeg and Tiff, and with every call succeeding the
encoder is created for Jpeg; the unsupported extension `.xyz` makes `SaveFile`
throw on line 530. -/
theorem SaveFile_container_format_of_extension_witness :
    (FilePathToContainerFormatGuid (L "PHOTO.JPE") = GUID.GUID_ContainerFormatJpeg ∧
      FilePathToContainerFormatGuid (L "a.TiFf") = GUID.GUID_ContainerFormatTiff ∧
      (Event.CreateEncoder GUID.GUID_ContainerFormatJpeg ∈
        (SaveFile (worldOk.file 0) (L "PHOTO.JPE")).trace ↔
        GUID.GUID_ContainerFormatJpeg =
          containerFormatOfExtension (extensionOf (L "PHOTO.JPE")))) ∧
    containerFormatOfExtension (extensionOf (L "out.xyz")) = GUID.GUID_NULL ∧
    (SaveFile (worldOk.file 0) (L "out.xyz")).result =
      Except.error (Failure.CHECK_BOOL 530) :=
  ⟨⟨(SaveFile_container_format_of_extension (L "PHOTO.JPE") (worldOk.file 0)).1.trans
      (by decide),
    (SaveFile_container_format_of_extension (L "a.TiFf") (worldOk.file 0)).1.trans
      (by decide),
    (SaveFile_container_format_of_extension (L "PHOTO.JPE") (worldOk.file 0)).2.2
      (by decide) rfl rfl GUID.GUID_ContainerFormatJpeg⟩,
    by decide,
    ((SaveFile_container_format_of_extension (L "out.xyz") (worldOk.file 0)).2.1
      (by decide)).2.2 rfl rfl⟩

theorem ParseOptions_Scale (wtoi : WString → Int) (self : LaunchParameters)
    (w h : WString) (rest : List WString) :
    ParseOptions wtoi self (L "-Scale" :: w :: h :: rest) =
      ParseOptions wtoi { self with dstSize := ⟨u32OfInt (wtoi w), u32OfInt (wtoi h)⟩ } rest := by
  simp [ParseOptions, show (L "-Scale").head? = some 45 from by decide,
    show L "-Scale" ≠ L "-Mode" from by decide]

theorem ParseOptions_Sharpness (wtoi : WString → Int) (self : LaunchParameters)
    (v : WString) (rest : List WString) :
    ParseOptions wtoi self (L "-Sharpness" :: v :: rest) =
      ParseOptions wtoi { self with sharpness := float.of_wtof v } rest := by
  cases rest <;>
  simp [ParseOptions, show (L "-Sharpness").head? = some 45 from by decide,
    show L "-Sharpness" ≠ L "-Mode" from by decide,
    show L "-Sharpness" ≠ L "-Scale" from by decide,
    show L "-Sharpness" ≠ L "-Linear" from by decide,
    show L "-Sharpness" ≠ L "-FP16" from by decide]

theorem ParseOptions_cons (wtoi : WString → Int) (self : LaunchParameters) (arg : WString)
    (rest : List WString) :
    ParseOptions wtoi self (arg :: rest) =
      if arg.head? = some 45 then
        match OptionStep wtoi self arg rest with
        | Except.error e => Except.error e
        | Except.ok (self2, rest2) => ParseOptions wtoi self2 rest2
      else Except.ok (self, arg :: rest) := by
  by_cases hd : arg.head? = some 45
  · rcases rest with _ | ⟨a1, _ | ⟨a2, rest2⟩⟩
    · by_cases h1 : arg = L "-Linear"
      · subst h1
        simp [ParseOptions, OptionStep, hd, show L "-Linear" ≠ L "-Mode" from by decide,
          show L "-Linear" ≠ L "-Scale" from by decide]
      · by_cases h2 : arg = L "-FP16"
        · subst h2
          simp [ParseOptions, OptionStep, hd, show L "-FP16" ≠ L "-Mode" from by decide,
            show L "-FP16" ≠ L "-Scale" from by decide,
            show L "-FP16" ≠ L "-Linear" from by decide]
        · simp [ParseOptions, OptionStep, hd, h1, h2]
    · by_cases h0 : arg = L "-Mode"
      · subst h0
        by_cases hm : StrToInterpolationMode a1 = InterpolationMode.Count <;>
          simp [ParseOptions, OptionStep, hd, hm]
      · by_cases h1 : arg = L "-Linear"
        · subst h1
          simp [ParseOptions, OptionStep, hd, show L "-Linear" ≠ L "-Mode" from by decide,
            show L "-Linear" ≠ L "-Scale" from by decide]
        · by_cases h2 : arg = L "-FP16"
          · subst h2
            simp [ParseOptions, OptionStep, hd, show L "-FP16" ≠ L "-Mode" from by decide,
              show L "-FP16" ≠ L "-Scale" from by decide,
              show L "-FP16" ≠ L "-Linear" from by decide]
          · by_cases h3 : arg = L "-Sharpness"
            · subst h3
              simp [ParseOptions, OptionStep, hd,
                show L "-Sharpness" ≠ L "-Mode" from by decide,
                show L "-Sharpness" ≠ L "-Scale" from by decide,
                show L "-Sharpness" ≠ L "-Linear" from by decide,
                show L "-Sharpness" ≠ L "-FP16" from by decide]
            · simp [ParseOptions, OptionStep, hd, h0, h1, h2, h3]
    · by_cases h0 : arg = L "-Mode"
      · subst h0
        by_cases hm : StrToInterpolationMode a1 = InterpolationMode.Count <;>
          simp [ParseOptions, OptionStep, hd, hm]
      · by_cases hs : arg = L "-Scale"
        · subst hs
          simp [ParseOptions, OptionStep, hd, show L "-Scale" ≠ L "-Mode" from by decide]
        · by_cases h1 : arg = L "-Linear"
          · subst h1
            simp [ParseOptions, OptionStep, hd, show L "-Linear" ≠ L "-Mode" from by decide,
              show L "-Linear" ≠ L "-Scale" from by decide]
          · by_cases h2 : arg = L "-FP16"
            · subst h2
              simp [ParseOptions, OptionStep, hd, show L "-FP16" ≠ L "-Mode" from by decide,
                show L "-FP16" ≠ L "-Scale" from by decide,
                show L "-FP16" ≠ L "-Linear" from by decide]
            · by_cases h3 : arg = L "-Sharpness"
              · subst h3
                simp [ParseOptions, OptionStep, hd,
                  show L "-Sharpness" ≠ L "-Mode" from by decide,
                  show L "-Sharpness" ≠ L "-Scale" from by decide,
                  show L "-Sharpness" ≠ L "-Linear" from by decide,
                  show L "-Sharpness" ≠ L "-FP16" from by decide]
              · simp [ParseOptions, OptionStep, hd, h0, hs, h1, h2, h3]
  · rcases rest with _ | ⟨a1, _ | ⟨a2, rest2⟩⟩ <;> simp [ParseOptions, hd]

theorem OptionStep_invariants (wtoi : WString → Int) (self : LaunchParameters) (arg : WString)
    (rest : List WString) (self2 : LaunchParameters) (rest2 : List WString)
    (h : OptionStep wtoi self arg rest = Except.ok (self2, rest2)) :
    rest2.length ≤ rest.length ∧
    (∀ a, a ∈ rest2 → a ∈ rest) ∧
    (self.interpolationMode ≠ InterpolationMode.Count →
      self2.interpolationMode ≠ InterpolationMode.Count) ∧
    self2.filesToProcess = self.filesToProcess ∧
    (arg ≠ L "-Scale" → self2.dstSize = self.dstSize) := by
  unfold OptionStep at h
  split_ifs at h with c1 c2 c3 c4 c5 c6
  all_goals
    simp only [Except.ok.injEq, Prod.mk.injEq, reduceCtorEq] at h
  all_goals
    obtain ⟨h1, h2⟩ := h
    subst h1 h2
  · refine ⟨by simp, fun a ha => List.mem_of_mem_tail ha, fun _ => c2, rfl, fun _ => rfl⟩
  · refine ⟨by simp; omega, fun a ha => List.mem_of_mem_tail (List.mem_of_mem_tail ha),
      fun h => h, rfl, fun hh => absurd c3.1 hh⟩
  · exact ⟨le_refl _, fun a ha => ha, fun h => h, rfl, fun _ => rfl⟩
  · exact ⟨le_refl _, fun a ha => ha, fun h => h, rfl, fun _ => rfl⟩
  · exact ⟨by simp, fun a ha => List.mem_of_mem_tail ha, fun h => h, rfl, fun _ => rfl⟩

theorem ParseOptions_invariants_aux (wtoi : WString → Int) (n : Nat) :
    ∀ (args : List WString) (self p : LaunchParameters) (rest : List WString),
      args.length ≤ n →
      ParseOptions wtoi self args = Except.ok (p, rest) →
      (self.interpolationMode ≠ InterpolationMode.Count →
        p.interpolationMode ≠ InterpolationMode.Count) ∧
      p.filesToProcess = self.filesToProcess ∧
      (L "-Scale" ∉ args → p.dstSize = self.dstSize) := by
  induction n with
  | zero =>
    intro args self p rest hlen h
    have hnil : args = [] := List.length_eq_zero.1 (Nat.le_zero.1 hlen)
    subst hnil
    simp only [ParseOptions, Except.ok.injEq, Prod.mk.injEq] at h
    obtain ⟨h1, _⟩ := h
    subst h1
    exact ⟨fun h => h, rfl, fun _ => rfl⟩
  | succ n ih =>
    intro args self p rest hlen h
    cases args with
    | nil =>
      simp only [ParseOptions, Except.ok.injEq, Prod.mk.injEq] at h
      obtain ⟨h1, _⟩ := h
      subst h1
      exact ⟨fun h => h, rfl, fun _ => rfl⟩
    | cons arg rest0 =>
      rw [ParseOptions_cons] at h
      by_cases hd : arg.head? = some 45
      · rw [if_pos hd] at h
        cases hstep : OptionStep wtoi self arg rest0 with
        | error e => rw [hstep] at h; cases h
        | ok r =>
          obtain ⟨self2, rest2⟩ := r
          rw [hstep] at h
          obtain ⟨hl, hmem, hmode, hfiles, hdst⟩ :=
            OptionStep_invariants wtoi self arg rest0 self2 rest2 hstep
          have hlen2 : rest2.length ≤ n := by
            simp only [List.length_cons] at hlen
            omega
          obtain ⟨imode, ifiles, idst⟩ := ih rest2 self2 p rest hlen2 h
          refine ⟨fun h0 => imode (hmode h0), ifiles.trans hfiles, fun hns => ?_⟩
          have hns1 : arg ≠ L "-Scale" := fun he => hns (by simp [he])
          have hns2 : L "-Scale" ∉ rest2 := fun hin => hns (by simp [hmem _ hin])
          exact (idst hns2).trans (hdst hns1)
      · rw [if_neg hd] at h
        simp only [Except.ok.injEq, Prod.mk.injEq] at h
        obtain ⟨h1, _⟩ := h
        subst h1
        exact ⟨fun h => h, rfl, fun _ => rfl⟩

/-- What the options loop keeps: it never leaves the mode `Count`, it does not
touch the file list, and it leaves `dstSize` alone unless an argument is `-Scale`. -/
theorem ParseOptions_invariants (wtoi : WString → Int) (args : List WString)
    (self p : LaunchParameters) (rest : List WString)
    (h : ParseOptions wtoi self args = Except.ok (p, rest)) :
    (self.interpolationMode ≠ InterpolationMode.Count →
      p.interpolationMode ≠ InterpolationMode.Count) ∧
    p.filesToProcess = self.filesToProcess ∧
    (L "-Scale" ∉ args → p.dstSize = self.dstSize) :=
  ParseOptions_invariants_aux wtoi args.length args self p rest (le_refl _) h

/-! ## Routing of a file to a pipeline -/

theorem CAS_result (self : GpuResources) (sharpness : float) (dstSize srcSize : uvec2) :
    (self.CAS sharpness dstSize srcSize).result = Except.ok () := rfl

theorem Run.trace_bind_of_ok {α β : Type} (r : Run α) (f : α → Run β) (a : α)
    (h : r.result = Except.ok a) : (Run.bind r f).trace = r.trace ++ (f a).trace := by
  unfold Run.bind
  rw [h]

theorem Run.result_bind_of_ok {α β : Type} (r : Run α) (f : α → Run β) (a : α)
    (h : r.result = Except.ok a) : (Run.bind r f).result = (f a).result := by
  unfold Run.bind
  rw [h]

theorem Run.trace_bind_of_error {α β : Type} (r : Run α) (f : α → Run β) (e : Failure)
    (h : r.result = Except.error e) : (Run.bind r f).trace = r.trace := by
  unfold Run.bind
  rw [h]

theorem Run.result_bind_of_error {α β : Type} (r : Run α) (f : α → Run β) (e : Failure)
    (h : r.result = Except.error e) : (Run.bind r f).result = Except.error e := by
  unfold Run.bind
  rw [h]

theorem Run.trace_bind_CHECK_BOOL {β : Type} (line : Nat) (b : Bool) (f : Unit → Run β) :
    (Run.bind (CHECK_BOOL line b) f).trace = if b then (f ()).trace else [] := by
  cases b <;> rfl

theorem Run.result_bind_CHECK_BOOL {β : Type} (line : Nat) (b : Bool) (f : Unit → Run β) :
    (Run.bind (CHECK_BOOL line b) f).result =
      if b then (f ()).result else Except.error (Failure.CHECK_BOOL line) := by
  cases b <;> rfl

theorem forall_mem_ite_nil {α : Type} (c : Prop) [Decidable c] (l : List α) (Q : α → Prop) :
    (∀ a ∈ (if c then l else []), Q a) ↔ (c → ∀ a ∈ l, Q a) := by
  by_cases h : c <;> simp [h]

theorem Run.isAbort_bind_CHECK_HR {β : Type} (hr : Nat → Bool) (line : Nat) (e : Event)
    (f : Unit → Run β) :
    (Run.bind (CHECK_HR hr line e) f).isAbort = (hr line && (f ()).isAbort) := by
  unfold Run.isAbort
  rw [Run.result_bind_CHECK_HR]
  cases hr line <;> simp

theorem Run.isAbort_bind_CHECK_BOOL {β : Type} (line : Nat) (b : Bool) (f : Unit → Run β) :
    (Run.bind (CHECK_BOOL line b) f).isAbort = (b && (f ()).isAbort) := by
  unfold Run.isAbort
  rw [Run.result_bind_CHECK_BOOL]
  cases b <;> simp

theorem Run.isAbort_bind_emit {β : Type} (e : Event) (f : Unit → Run β) :
    (Run.bind (emit e) f).isAbort = (f ()).isAbort := rfl

theorem Run.isAbort_CHECK_HR (hr : Nat → Bool) (line : Nat) (e : Event) :
    (CHECK_HR hr line e).isAbort = false := by
  unfold Run.isAbort CHECK_HR
  cases hr line <;> rfl

theorem SaveFile_events {Q : Event → Prop} (env : FileEnv) (filePath : WString)
    (hQ : ∀ e, e.isEntry = false → (∀ a b c d f, e ≠ Event.CasSetup a b c d f) → Q e) :
    ∀ e ∈ (SaveFile env filePath).trace, Q e := by
  simp only [SaveFile, Run.bind_eq, Run.trace_bind_CHECK_HR, Run.trace_bind_emit,
    Run.trace_bind_CHECK_BOOL, CHECK_HR_trace, List.forall_mem_cons, forall_mem_ite_nil,
    List.not_mem_nil, false_imp_iff, implies_true, and_true]
  repeat' first
    | apply And.intro
    | intro _
  all_goals
    apply hQ
    · rfl
    · intros; simp

theorem SaveFile_isAbort (env : FileEnv) (filePath : WString) :
    (SaveFile env filePath).isAbort = false := by
  simp [SaveFile, Run.bind_eq, Run.isAbort_bind_CHECK_HR, Run.isAbort_bind_emit,
    Run.isAbort_bind_CHECK_BOOL, Run.isAbort_CHECK_HR]

theorem Run.trace_ite {α : Type} (c : Prop) [Decidable c] (r1 r2 : Run α) :
    (if c then r1 else r2).trace = if c then r1.trace else r2.trace := by
  by_cases h : c <;> simp [h]

theorem Run.result_ite {α : Type} (c : Prop) [Decidable c] (r1 r2 : Run α) :
    (if c then r1 else r2).result = if c then r1.result else r2.result := by
  by_cases h : c <;> simp [h]

theorem Run.isAbort_ite {α : Type} (c : Prop) [Decidable c] (r1 r2 : Run α) :
    (if c then r1 else r2).isAbort = if c then r1.isAbort else r2.isAbort := by
  by_cases h : c <;> simp [h]

theorem forall_mem_ite {α : Type} (c : Prop) [Decidable c] (l1 l2 : List α) (Q : α → Prop) :
    (∀ a ∈ (if c then l1 else l2), Q a) ↔ (c → ∀ a ∈ l1, Q a) ∧ (¬ c → ∀ a ∈ l2, Q a) := by
  by_cases h : c <;> simp [h]

theorem Run.pure_bind {α β : Type} (a : α) (f : α → Run β) : Run.bind (pure a) f = f a := rfl

theorem Run.isAbort_bind_CAS {β : Type} (self : GpuResources) (sharpness : float)
    (dstSize srcSize : uvec2) (f : Unit → Run β) :
    (Run.bind (self.CAS sharpness dstSize srcSize) f).isAbort = (f ()).isAbort := rfl

theorem CAS_trace (self : GpuResources) (sharpness : float) (dstSize srcSize : uvec2) :
    (self.CAS sharpness dstSize srcSize).trace =
      [Event.CasSetup sharpness (float.of_uint32 srcSize.x) (float.of_uint32 srcSize.y)
        (float.of_uint32 dstSize.x) (float.of_uint32 dstSize.y),
       Event.UpdateSubresource,
       Event.CSSetShader (if (dstSize.x == srcSize.x && dstSize.y == srcSize.y) = true
         then self.m_CasComputeShader_NoScaling else self.m_CasComputeShader),
       Event.CSSetConstantBuffers, Event.CSSetShaderResources, Event.CSSetUnorderedAccessViews,
       Event.Dispatch (CeilDiv dstSize.x 16) (CeilDiv dstSize.y 16) 1] := rfl

theorem Run.trace_bind_CAS {β : Type} (self : GpuResources) (sharpness : float)
    (dstSize srcSize : uvec2) (f : Unit → Run β) :
    (Run.bind (self.CAS sharpness dstSize srcSize) f).trace =
      (self.CAS sharpness dstSize srcSize).trace ++ (f ()).trace := rfl

theorem Run.result_bind_CAS {β : Type} (self : GpuResources) (sharpness : float)
    (dstSize srcSize : uvec2) (f : Unit → Run β) :
    (Run.bind (self.CAS sharpness dstSize srcSize) f).result = (f ()).result := rfl

theorem ProcessImageOnGpu_events {Q : Event → Prop} (self : Application) (env : FileEnv)
    (dstSize srcSize : uvec2) (dstFilePath : WString)
    (hQ : ∀ e, e.isEntry = false →
      (∀ a b c d f, e = Event.CasSetup a b c d f → a = self.m_Params.sharpness) → Q e) :
    (ProcessImageOnGpu self env dstSize srcSize dstFilePath).trace.head? =
      some (Event.ProcessImageOnGpu dstSize srcSize dstFilePath) ∧
    ∀ e ∈ (ProcessImageOnGpu self env dstSize srcSize dstFilePath).trace.tail, Q e := by
  refine ⟨rfl, ?_⟩
  cases hg : self.m_GpuResources with
  | none =>
    simp [ProcessImageOnGpu, hg, Run.bind_eq, Run.trace_bind_emit, fail]
  | some gpu =>
    simp only [ProcessImageOnGpu, hg, Run.bind_eq, Run.trace_bind_CHECK_HR, Run.trace_bind_emit,
      Run.trace_bind_CHECK_BOOL, CHECK_HR_trace, List.forall_mem_cons, forall_mem_ite_nil,
      List.not_mem_nil, false_imp_iff, implies_true, and_true, Run.trace_bind_CAS, CAS_trace,
      List.forall_mem_append, Run.trace_ite, forall_mem_ite, Run.pure_bind, List.tail_cons]
    have hsave := SaveFile_events env dstFilePath
      (fun e h1 h2 => hQ e h1 (fun a b c d f he => absurd he (h2 a b c d f)))
    repeat' first
      | apply And.intro
      | exact hsave
      | intro _
    all_goals
      apply hQ
      · rfl
      · intro a b c d f he
        first
          | (injection he with h1; exact h1.symm)
          | cases he

theorem ProcessImageOnCpu_events {Q : Event → Prop} (self : Application) (env : FileEnv)
    (dstSize srcSize : uvec2) (dstFilePath : WString)
    (hQ : ∀ e, e.isEntry = false → (∀ a b c d f, e ≠ Event.CasSetup a b c d f) → Q e) :
    (ProcessImageOnCpu self env dstSize srcSize dstFilePath).trace.head? =
      some (Event.ProcessImageOnCpu dstSize srcSize dstFilePath) ∧
    ∀ e ∈ (ProcessImageOnCpu self env dstSize srcSize dstFilePath).trace.tail, Q e := by
  refine ⟨rfl, ?_⟩
  have hsave := SaveFile_events env dstFilePath hQ
  cases hm : self.m_Params.interpolationMode <;>
    simp only [ProcessImageOnCpu, hm, InterpolationModeToWicInterpolationMode, Run.bind_eq,
      Run.trace_bind_CHECK_HR, Run.trace_bind_emit, CHECK_HR_trace, List.forall_mem_cons,
      forall_mem_ite_nil, List.not_mem_nil, false_imp_iff, implies_true, and_true,
      Run.pure_bind, fail, Run.bind_error, List.tail_cons] <;>
    (repeat' first
      | apply And.intro
      | exact hsave
      | intro _) <;>
    (apply hQ
     · rfl
     · intros; simp)

theorem ProcessImageOnGpu_isAbort (self : Application) (env : FileEnv)
    (dstSize srcSize : uvec2) (dstFilePath : WString) (gpu : GpuResources)
    (hg : self.m_GpuResources = some gpu) :
    (ProcessImageOnGpu self env dstSize srcSize dstFilePath).isAbort = false := by
  simp [ProcessImageOnGpu, hg, Run.bind_eq, Run.isAbort_bind_CHECK_HR, Run.isAbort_bind_emit,
    Run.isAbort_ite, SaveFile_isAbort, Run.pure_bind, Run.isAbort_bind_CAS]

theorem ProcessImageOnCpu_isAbort (self : Application) (env : FileEnv)
    (dstSize srcSize : uvec2) (dstFilePath : WString)
    (h1 : self.m_Params.interpolationMode ≠ InterpolationMode.CAS)
    (h2 : self.m_Params.interpolationMode ≠ InterpolationMode.Count) :
    (ProcessImageOnCpu self env dstSize srcSize dstFilePath).isAbort = false := by
  cases hm : self.m_Params.interpolationMode <;>
    first
      | exact absurd hm h1
      | exact absurd hm h2
      | simp [ProcessImageOnCpu, hm, InterpolationModeToWicInterpolationMode, Run.bind_eq,
          Run.isAbort_bind_CHECK_HR, Run.isAbort_bind_emit, SaveFile_isAbort, Run.pure_bind]

theorem ProcessFile_trace (self : Application) (env : FileEnv) (file : FileToProcess) :
    (ProcessFile self env file).trace =
      Event.wprintf_Loading file.srcFilePath ::
      Event.CreateDecoderFromFilename file.srcFilePath ::
      (if env.hr 394 = true then
        Event.GetFrame ::
        (if env.hr 402 = true then
          Event.GetSize ::
          (if env.hr 405 = true then
            (if InterpolationModeNeedsGpu self.m_Params.interpolationMode = true then
              ProcessImageOnGpu self env
                ⟨if self.m_Params.dstSize.x ≠ UINT32_MAX then self.m_Params.dstSize.x
                  else env.srcSize.x,
                 if self.m_Params.dstSize.y ≠ UINT32_MAX then self.m_Params.dstSize.y
                  else env.srcSize.y⟩ env.srcSize file.dstFilePath
            else
              ProcessImageOnCpu self env
                ⟨if self.m_Params.dstSize.x ≠ UINT32_MAX then self.m_Params.dstSize.x
                  else env.srcSize.x,
                 if self.m_Params.dstSize.y ≠ UINT32_MAX then self.m_Params.dstSize.y
                  else env.srcSize.y⟩ env.srcSize file.dstFilePath).trace
          else [])
        else [])
      else []) := by
  simp only [ProcessFile, Run.bind_eq, Run.trace_bind_CHECK_HR, Run.trace_bind_emit]

theorem ProcessFile_isAbort (self : Application) (env : FileEnv) (file : FileToProcess)
    (hgpu : self.m_Params.interpolationMode = InterpolationMode.CAS →
      self.m_GpuResources.isSome = true)
    (hmode : self.m_Params.interpolationMode ≠ InterpolationMode.Count) :
    (ProcessFile self env file).isAbort = false := by
  by_cases hm : self.m_Params.interpolationMode = InterpolationMode.CAS
  · obtain ⟨gpu, hg⟩ := Option.isSome_iff_exists.1 (hgpu hm)
    simp [ProcessFile, Run.bind_eq, Run.isAbort_bind_CHECK_HR, Run.isAbort_bind_emit,
      InterpolationModeNeedsGpu, hm, ProcessImageOnGpu_isAbort _ _ _ _ _ gpu hg]
  · simp [ProcessFile, Run.bind_eq, Run.isAbort_bind_CHECK_HR, Run.isAbort_bind_emit,
      InterpolationModeNeedsGpu, hm, ProcessImageOnCpu_isAbort _ _ _ _ _ hm hmode]

theorem filter_isEntry_of_head_tail (t : List Event) (entry : Event)
    (hentry : entry.isEntry = true) (hhead : t.head? = some entry)
    (htail : ∀ e ∈ t.tail, e.isEntry = false) :
    t.filter Event.isEntry = [entry] := by
  cases t with
  | nil => simp at hhead
  | cons a l =>
    simp only [List.head?_cons, Option.some.injEq] at hhead
    subst hhead
    simp only [List.tail_cons] at htail
    have hnil : l.filter Event.isEntry = [] := by
      rw [List.filter_eq_nil_iff]
      intro e he
      simp [htail e he]
    simp [List.filter_cons, hentry, hnil]

theorem filter_ite_nil {α : Type} (p : α → Bool) (c : Prop) [Decidable c] (l : List α) :
    (if c then l else []).filter p = if c then l.filter p else [] := by
  by_cases h : c <;> simp [h]

/-- The pipeline entries of one `ProcessFile`: none when decoding fails, otherwise
exactly one, into the pipeline chosen by the mode, with the destination size
resolved as on lines 407-409. -/
theorem ProcessFile_entries (self : Application) (env : FileEnv) (file : FileToProcess) :
    (ProcessFile self env file).trace.filter Event.isEntry =
      if env.hr 394 = true ∧ env.hr 402 = true ∧ env.hr 405 = true then
        [if self.m_Params.interpolationMode = InterpolationMode.CAS then
          Event.ProcessImageOnGpu
            ⟨if self.m_Params.dstSize.x ≠ UINT32_MAX then self.m_Params.dstSize.x
              else env.srcSize.x,
             if self.m_Params.dstSize.y ≠ UINT32_MAX then self.m_Params.dstSize.y
              else env.srcSize.y⟩ env.srcSize file.dstFilePath
        else
          Event.ProcessImageOnCpu
            ⟨if self.m_Params.dstSize.x ≠ UINT32_MAX then self.m_Params.dstSize.x
              else env.srcSize.x,
             if self.m_Params.dstSize.y ≠ UINT32_MAX then self.m_Params.dstSize.y
              else env.srcSize.y⟩ env.srcSize file.dstFilePath]
      else [] := by
  rw [ProcessFile_trace]
  have hG : ∀ d, (ProcessImageOnGpu self env d env.srcSize file.dstFilePath).trace.filter
      Event.isEntry = [Event.ProcessImageOnGpu d env.srcSize file.dstFilePath] := fun d =>
    filter_isEntry_of_head_tail _ (Event.ProcessImageOnGpu d env.srcSize file.dstFilePath) rfl
      (ProcessImageOnGpu_events self env d env.srcSize file.dstFilePath (fun e h _ => h)).1
      (ProcessImageOnGpu_events self env d env.srcSize file.dstFilePath (fun e h _ => h)).2
  have hC : ∀ d, (ProcessImageOnCpu self env d env.srcSize file.dstFilePath).trace.filter
      Event.isEntry = [Event.ProcessImageOnCpu d env.srcSize file.dstFilePath] := fun d =>
    filter_isEntry_of_head_tail _ (Event.ProcessImageOnCpu d env.srcSize file.dstFilePath) rfl
      (ProcessImageOnCpu_events self env d env.srcSize file.dstFilePath (fun e h _ => h)).1
      (ProcessImageOnCpu_events self env d env.srcSize file.dstFilePath (fun e h _ => h)).2
  by_cases hm : self.m_Params.interpolationMode = InterpolationMode.CAS
  · have hn : InterpolationModeNeedsGpu self.m_Params.interpolationMode = true := by
      simp [InterpolationModeNeedsGpu, hm]
    simp only [hn, if_true, hm]
    cases h1 : env.hr 394 <;> cases h2 : env.hr 402 <;> cases h3 : env.hr 405 <;>
      simp [List.filter_cons, Event.isEntry, InterpolationModeNeedsGpu, hG]
  · have hn : InterpolationModeNeedsGpu self.m_Params.interpolationMode = false := by
      simp [InterpolationModeNeedsGpu, hm]
    simp only [hn, hm, if_false, Bool.false_eq_true]
    cases h1 : env.hr 394 <;> cases h2 : env.hr 402 <;> cases h3 : env.hr 405 <;>
      simp [List.filter_cons, Event.isEntry, InterpolationModeNeedsGpu, hm, hC]

/-! ## The `-Scale` option -/

theorem scaleGiven_cons (arg : WString) (rest : List WString) :
    scaleGiven (arg :: rest) =
      if arg = L "-Scale" then
        match rest with
        | w :: h :: rest2 =>
          match scaleGiven rest2 with
          | some later => some later
          | none => some (w, h)
        | _ => none
      else if arg = L "-Mode" ∨ arg = L "-Sharpness" then
        match rest with
        | _ :: rest1 => scaleGiven rest1
        | [] => none
      else if arg = L "-Linear" ∨ arg = L "-FP16" then scaleGiven rest
      else none := by
  rw [scaleGiven.eq_def]

theorem OptionStep_scaleGiven (wtoi : WString → Int) (self : LaunchParameters) (arg : WString)
    (rest : List WString) (self2 : LaunchParameters) (rest2 : List WString)
    (h : OptionStep wtoi self arg rest = Except.ok (self2, rest2)) :
    dstSizeOfScale wtoi self.dstSize (scaleGiven (arg :: rest)) =
      dstSizeOfScale wtoi self2.dstSize (scaleGiven rest2) := by
  unfold OptionStep at h
  split_ifs at h with c1 c2 c3 c4 c5 c6
  all_goals
    simp only [Except.ok.injEq, Prod.mk.injEq, reduceCtorEq] at h
  all_goals
    obtain ⟨h1, h2⟩ := h
    subst h1 h2
  · obtain ⟨harg, hlen⟩ := c1
    subst harg
    cases rest with
    | nil => simp at hlen
    | cons a1 r1 =>
      simp [scaleGiven_cons, show L "-Mode" ≠ L "-Scale" from by decide]
  · obtain ⟨harg, hlen⟩ := c3
    subst harg
    rcases rest with _ | ⟨w, _ | ⟨h, r2⟩⟩
    · simp at hlen
    · simp at hlen
    · simp only [scaleGiven_cons, if_true, List.tail_cons, List.headD_cons]
      cases hs : scaleGiven r2 with
      | none => simp [dstSizeOfScale]
      | some later =>
        obtain ⟨w2, h2⟩ := later
        simp [dstSizeOfScale]
  · subst c4
    simp [scaleGiven_cons, show L "-Linear" ≠ L "-Scale" from by decide,
      show L "-Linear" ≠ L "-Mode" from by decide,
      show L "-Linear" ≠ L "-Sharpness" from by decide]
  · subst c5
    simp [scaleGiven_cons, show L "-FP16" ≠ L "-Scale" from by decide,
      show L "-FP16" ≠ L "-Mode" from by decide,
      show L "-FP16" ≠ L "-Sharpness" from by decide,
      show L "-FP16" ≠ L "-Linear" from by decide]
  · obtain ⟨harg, hlen⟩ := c6
    subst harg
    cases rest with
    | nil => simp at hlen
    | cons a1 r1 =>
      simp [scaleGiven_cons, show L "-Sharpness" ≠ L "-Scale" from by decide,
        show L "-Sharpness" ≠ L "-Mode" from by decide]

theorem scaleGiven_of_not_dash (arg : WString) (rest : List WString)
    (hd : arg.head? ≠ some 45) : scaleGiven (arg :: rest) = none := by
  have h1 : arg ≠ L "-Scale" := fun h => hd (by rw [h]; decide)
  have h2 : arg ≠ L "-Mode" := fun h => hd (by rw [h]; decide)
  have h3 : arg ≠ L "-Sharpness" := fun h => hd (by rw [h]; decide)
  have h4 : arg ≠ L "-Linear" := fun h => hd (by rw [h]; decide)
  have h5 : arg ≠ L "-FP16" := fun h => hd (by rw [h]; decide)
  simp [scaleGiven_cons, h1, h2, h3, h4, h5]

theorem ParseOptions_scaleGiven_aux (wtoi : WString → Int) (n : Nat) :
    ∀ (args : List WString) (self p : LaunchParameters) (rest : List WString),
      args.length ≤ n →
      ParseOptions wtoi self args = Except.ok (p, rest) →
      p.dstSize = dstSizeOfScale wtoi self.dstSize (scaleGiven args) := by
  induction n with
  | zero =>
    intro args self p rest hlen h
    have hnil : args = [] := List.length_eq_zero.1 (Nat.le_zero.1 hlen)
    subst hnil
    simp only [ParseOptions, Except.ok.injEq, Prod.mk.injEq] at h
    obtain ⟨h1, _⟩ := h
    subst h1
    rfl
  | succ n ih =>
    intro args self p rest hlen h
    cases args with
    | nil =>
      simp only [ParseOptions, Except.ok.injEq, Prod.mk.injEq] at h
      obtain ⟨h1, _⟩ := h
      subst h1
      rfl
    | cons arg rest0 =>
      rw [ParseOptions_cons] at h
      by_cases hd : arg.head? = some 45
      · rw [if_pos hd] at h
        cases hstep : OptionStep wtoi self arg rest0 with
        | error e => rw [hstep] at h; cases h
        | ok r =>
          obtain ⟨self2, rest2⟩ := r
          rw [hstep] at h
          have hl := (OptionStep_invariants wtoi self arg rest0 self2 rest2 hstep).1
          have hlen2 : rest2.length ≤ n := by
            simp only [List.length_cons] at hlen
            omega
          rw [ih rest2 self2 p rest hlen2 h,
            OptionStep_scaleGiven wtoi self arg rest0 self2 rest2 hstep]
      · rw [if_neg hd] at h
        simp only [Except.ok.injEq, Prod.mk.injEq] at h
        obtain ⟨h1, _⟩ := h
        subst h1
        rw [scaleGiven_of_not_dash arg rest0 hd]
        rfl

/-- The stored destination size after an accepted parse is the one the given
`-Scale` option stands for, and `UINT32_MAX` in both fields when none is given. -/
theorem ParseCommandLine_dstSize (wtoi : WString → Int) (args : List WString)
    (params : LaunchParameters) (hparse : ParseCommandLine wtoi args = Except.ok params) :
    params.dstSize = dstSizeOfScale wtoi ⟨UINT32_MAX, UINT32_MAX⟩ (scaleGiven args) := by
  unfold ParseCommandLine at hparse
  cases hopt : ParseOptions wtoi {} args with
  | error e => rw [hopt] at hparse; cases hparse
  | ok r =>
    obtain ⟨p, rest⟩ := r
    rw [hopt] at hparse
    have hp := ParseOptions_scaleGiven_aux wtoi args.length args {} p rest (le_refl _) hopt
    by_cases hodd : rest.length % 2 = 0
    · simp only [hodd, ne_eq, not_true_eq_false, if_false, Except.ok.injEq] at hparse
      rw [← hparse]
      exact hp
    · simp [hodd] at hparse

/-! ## Parsed parameters -/

theorem ParseCommandLine_ok (wtoi : WString → Int) (args : List WString)
    (params : LaunchParameters) (hparse : ParseCommandLine wtoi args = Except.ok params) :
    ∃ p rest, ParseOptions wtoi {} args = Except.ok (p, rest) ∧ rest.length % 2 = 0 ∧
      params = { p with filesToProcess := p.filesToProcess ++ ParseFiles rest } := by
  unfold ParseCommandLine at hparse
  cases hopt : ParseOptions wtoi {} args with
  | error e => rw [hopt] at hparse; cases hparse
  | ok r =>
    obtain ⟨p, rest⟩ := r
    rw [hopt] at hparse
    by_cases hodd : rest.length % 2 = 0
    · simp only [hodd, ne_eq, not_true_eq_false, if_false, Except.ok.injEq] at hparse
      exact ⟨p, rest, rfl, hodd, hparse.symm⟩
    · simp [hodd] at hparse

theorem ParseCommandLine_invariants (wtoi : WString → Int) (args : List WString)
    (params : LaunchParameters) (hparse : ParseCommandLine wtoi args = Except.ok params) :
    params.interpolationMode ≠ InterpolationMode.Count ∧
    (L "-Scale" ∉ args → params.dstSize = ⟨UINT32_MAX, UINT32_MAX⟩) := by
  obtain ⟨p, rest, hopt, _, hp⟩ := ParseCommandLine_ok wtoi args params hparse
  obtain ⟨h1, _, h3⟩ := ParseOptions_invariants wtoi args {} p rest hopt
  subst hp
  exact ⟨h1 (by decide), fun h => h3 h⟩

/-! ## Destination size -/

/-- C5 (as amended): the destination size that `ProcessFile` hands to the pipeline
is, in each dimension, the value stored in `params.dstSize` unless that value is
`UINT32_MAX`, in which case it is the source image's. For every accepted command
line the stored value is `UINT32_MAX` in both dimensions when no `-Scale` option
is given, and is the pair given by `-Scale <W> <H>` (the last one, converted to
`uint32_t`) wherever among the options it stands. So the result is the source
size without `-Scale`, and `(W, H)` with `-Scale <W> <H>` except in a dimension
whose value converts to 4294967295, where the source size is used. -/
theorem ProcessFile_resolves_dstSize (wtoi : WString → Int) (args : List WString)
    (params : LaunchParameters) (hparse : ParseCommandLine wtoi args = Except.ok params)
    (gpu : Option GpuResources) (env : FileEnv) (file : FileToProcess)
    (hdecode : env.hr 394 = true ∧ env.hr 402 = true ∧ env.hr 405 = true) :
    ∃ dstSize : uvec2,
      (ProcessFile ⟨params, gpu⟩ env file).trace.filter Event.isEntry =
        [if params.interpolationMode = InterpolationMode.CAS then
          Event.ProcessImageOnGpu dstSize env.srcSize file.dstFilePath
        else Event.ProcessImageOnCpu dstSize env.srcSize file.dstFilePath] ∧
      dstSize.x = (if params.dstSize.x ≠ UINT32_MAX then params.dstSize.x else env.srcSize.x) ∧
      dstSize.y = (if params.dstSize.y ≠ UINT32_MAX then params.dstSize.y else env.srcSize.y) ∧
      params.dstSize = dstSizeOfScale wtoi ⟨UINT32_MAX, UINT32_MAX⟩ (scaleGiven args) ∧
      (scaleGiven args = none → dstSize = env.srcSize) ∧
      (∀ w h, scaleGiven args = some (w, h) →
        (u32OfInt (wtoi w) ≠ UINT32_MAX → dstSize.x = u32OfInt (wtoi w)) ∧
        (u32OfInt (wtoi h) ≠ UINT32_MAX → dstSize.y = u32OfInt (wtoi h)) ∧
        (u32OfInt (wtoi w) = UINT32_MAX → dstSize.x = env.srcSize.x) ∧
        (u32OfInt (wtoi h) = UINT32_MAX → dstSize.y = env.srcSize.y)) ∧
      (L "-Scale" ∉ args → dstSize = env.srcSize) ∧
      (∀ w h rest, args = L "-Scale" :: w :: h :: rest → L "-Scale" ∉ rest →
        params.dstSize = ⟨u32OfInt (wtoi w), u32OfInt (wtoi h)⟩ ∧
        (u32OfInt (wtoi w) ≠ UINT32_MAX → dstSize.x = u32OfInt (wtoi w)) ∧
        (u32OfInt (wtoi h) ≠ UINT32_MAX → dstSize.y = u32OfInt (wtoi h)) ∧
        (u32OfInt (wtoi w) = UINT32_MAX → dstSize.x = env.srcSize.x) ∧
        (u32OfInt (wtoi h) = UINT32_MAX → dstSize.y = env.srcSize.y)) ∧
      (∀ self w h rest p r,
        ParseOptions wtoi self (L "-Scale" :: w :: h :: rest) = Except.ok (p, r) →
        L "-Scale" ∉ rest → p.dstSize = ⟨u32OfInt (wtoi w), u32OfInt (wtoi h)⟩) := by
  have hstep : ∀ self w h rest p r,
      ParseOptions wtoi self (L "-Scale" :: w :: h :: rest) = Except.ok (p, r) →
      L "-Scale" ∉ rest → p.dstSize = ⟨u32OfInt (wtoi w), u32OfInt (wtoi h)⟩ := by
    intro self w h rest p r hp hns
    rw [ParseOptions_Scale] at hp
    exact (ParseOptions_invariants wtoi rest _ p r hp).2.2 hns
  have hgiven := ParseCommandLine_dstSize wtoi args params hparse
  refine ⟨⟨if params.dstSize.x ≠ UINT32_MAX then params.dstSize.x else env.srcSize.x,
    if params.dstSize.y ≠ UINT32_MAX then params.dstSize.y else env.srcSize.y⟩, ?_, rfl, rfl,
    hgiven, ?_, ?_, ?_, ?_, hstep⟩
  · rw [ProcessFile_entries, if_pos hdecode]
  · intro hnone
    rw [hgiven, hnone]
    simp [dstSizeOfScale]
  · intro w h hsome
    rw [hgiven, hsome]
    simp only [dstSizeOfScale]
    refine ⟨?_, ?_, ?_, ?_⟩ <;> intro hh <;> simp [hh]
  · intro hns
    have hd := (ParseCommandLine_invariants wtoi args params hparse).2 hns
    rw [hd]
    simp
  · intro w h rest hargs hns
    obtain ⟨p, r, hopt, _, hp⟩ := ParseCommandLine_ok wtoi args params hparse
    rw [hargs] at hopt
    have hd : params.dstSize = ⟨u32OfInt (wtoi w), u32OfInt (wtoi h)⟩ := by
      rw [hp]
      exact hstep _ w h rest p r hopt hns
    rw [hd]
    refine ⟨rfl, ?_, ?_, ?_, ?_⟩ <;> intro hh <;> simp [hh]

/-- Witness for C5 (as amended): on a 100 x 100 source, `-FP16 -Scale 400 400` hands
400 x 400 to the GPU pipeline and `-Mode Fant -Scale 7 9` hands 7 x 9 to the CPU
pipeline: `-Scale` counts wherever it stands among the options. -/
theorem ProcessFile_resolves_dstSize_witness :
    (ParseCommandLine wtoiAscii
        [L "-FP16", L "-Scale", L "400", L "400", L "a.png", L "b.png"] =
        Except.ok paramsFp16Scale ∧
      scaleGiven [L "-FP16", L "-Scale", L "400", L "400", L "a.png", L "b.png"] =
        some (L "400", L "400") ∧
      ∃ dstSize : uvec2,
        (ProcessFile ⟨paramsFp16Scale,
          some ⟨ShaderBlob.NoScaling0_Linear1, ShaderBlob.NoScaling1_Linear1⟩⟩
          (worldOk.file 0) ⟨L "a.png", L "b.png"⟩).trace.filter Event.isEntry =
          [Event.ProcessImageOnGpu dstSize ⟨100, 100⟩ (L "b.png")] ∧
        dstSize.x = 400 ∧ dstSize.y = 400) ∧
    (ParseCommandLine wtoiAscii
        [L "-Mode", L "Fant", L "-Scale", L "7", L "9", L "a.png", L "b.png"] =
        Except.ok paramsFantScale ∧
      ∃ dstSize : uvec2,
        (ProcessFile ⟨paramsFantScale, none⟩
          (worldOk.file 0) ⟨L "a.png", L "b.png"⟩).trace.filter Event.isEntry =
          [Event.ProcessImageOnCpu dstSize ⟨100, 100⟩ (L "b.png")] ∧
        dstSize.x = 7 ∧ dstSize.y = 9) := by
  refine ⟨⟨by decide, by decide, ?_⟩, ⟨by decide, ?_⟩⟩
  · obtain ⟨d, h1, _, _, _, _, h6, _⟩ := ProcessFile_resolves_dstSize wtoiAscii
      [L "-FP16", L "-Scale", L "400", L "400", L "a.png", L "b.png"]
      paramsFp16Scale (by decide)
      (some ⟨ShaderBlob.NoScaling0_Linear1, ShaderBlob.NoScaling1_Linear1⟩)
      (worldOk.file 0) ⟨L "a.png", L "b.png"⟩ ⟨rfl, rfl, rfl⟩
    obtain ⟨hx, hy, _, _⟩ := h6 (L "400") (L "400") (by decide)
    exact ⟨d, h1, hx (by decide), hy (by decide)⟩
  · obtain ⟨d, h1, _, _, _, _, h6, _⟩ := ProcessFile_resolves_dstSize wtoiAscii
      [L "-Mode", L "Fant", L "-Scale", L "7", L "9", L "a.png", L "b.png"]
      paramsFantScale (by decide) none
      (worldOk.file 0) ⟨L "a.png", L "b.png"⟩ ⟨rfl, rfl, rfl⟩
    obtain ⟨hx, hy, _, _⟩ := h6 (L "7") (L "9") (by decide)
    exact ⟨d, h1, hx (by decide), hy (by decide)⟩

/-- C5 fails as stated: with `-Scale -1 -1` the given size is
(4294967295, 4294967295) as 32-bit values, but the size handed to the pipeline
for a 100 x 100 source is 100 x 100. -/
theorem ProcessFile_resolves_dstSize_counterexample :
    ParseCommandLine wtoiAscii [L "-Scale", L "-1", L "-1", L "a.png", L "b.png"] =
      Except.ok { dstSize := ⟨4294967295, 4294967295⟩,
                  filesToProcess := [⟨L "a.png", L "b.png"⟩] } ∧
    (u32OfInt (wtoiAscii (L "-1")) = 4294967295 ∧ 4294967295 < 2 ^ 32) ∧
    (wmain wtoiAscii worldOk
      [L "CasCmdLine.exe", L "-Scale", L "-1", L "-1", L "a.png", L "b.png"]).1.filter
      Event.isEntry = [Event.ProcessImageOnGpu ⟨100, 100⟩ ⟨100, 100⟩ (L "b.png")] := by
  decide

theorem ProcessFile_entry_mem (self : Application) (env : FileEnv) (file : FileToProcess)
    (e : Event) (he : e.isEntry = true) (hmem : e ∈ (ProcessFile self env file).trace) :
    (env.hr 394 = true ∧ env.hr 402 = true ∧ env.hr 405 = true) ∧
    e = (if self.m_Params.interpolationMode = InterpolationMode.CAS then
          Event.ProcessImageOnGpu
            ⟨if self.m_Params.dstSize.x ≠ UINT32_MAX then self.m_Params.dstSize.x
              else env.srcSize.x,
             if self.m_Params.dstSize.y ≠ UINT32_MAX then self.m_Params.dstSize.y
              else env.srcSize.y⟩ env.srcSize file.dstFilePath
        else
          Event.ProcessImageOnCpu
            ⟨if self.m_Params.dstSize.x ≠ UINT32_MAX then self.m_Params.dstSize.x
              else env.srcSize.x,
             if self.m_Params.dstSize.y ≠ UINT32_MAX then self.m_Params.dstSize.y
              else env.srcSize.y⟩ env.srcSize file.dstFilePath) := by
  have hf : e ∈ (ProcessFile self env file).trace.filter Event.isEntry :=
    List.mem_filter.2 ⟨hmem, he⟩
  rw [ProcessFile_entries] at hf
  by_cases hd : env.hr 394 = true ∧ env.hr 402 = true ∧ env.hr 405 = true
  · rw [if_pos hd, List.mem_singleton] at hf
    exact ⟨hd, hf⟩
  · rw [if_neg hd] at hf
    exact absurd hf (List.not_mem_nil e)

/-- C6 (as amended): for every accepted command line and every decoded source
image, the destination size handed to the GPU or CPU pipeline is zero in a
dimension exactly when the stored `-Scale` value of that dimension is 0, or is
`UINT32_MAX` (unset, or given as such) while the source image is zero in that
dimension. In particular it is non-zero in both dimensions when the source image
is and no stored `-Scale` value is 0, as when `-Scale` is not given at all. -/
theorem ProcessFile_dstSize_zero_iff (wtoi : WString → Int) (args : List WString)
    (params : LaunchParameters) (hparse : ParseCommandLine wtoi args = Except.ok params)
    (gpu : Option GpuResources) (env : FileEnv) (file : FileToProcess)
    (dstSize srcSize : uvec2) (dstFilePath : WString)
    (hentry : Event.ProcessImageOnGpu dstSize srcSize dstFilePath ∈
        (ProcessFile ⟨params, gpu⟩ env file).trace ∨
      Event.ProcessImageOnCpu dstSize srcSize dstFilePath ∈
        (ProcessFile ⟨params, gpu⟩ env file).trace) :
    srcSize = env.srcSize ∧
    (dstSize.x = 0 ↔
      params.dstSize.x = 0 ∨ (params.dstSize.x = UINT32_MAX ∧ srcSize.x = 0)) ∧
    (dstSize.y = 0 ↔
      params.dstSize.y = 0 ∨ (params.dstSize.y = UINT32_MAX ∧ srcSize.y = 0)) ∧
    (params.dstSize.x ≠ 0 → params.dstSize.y ≠ 0 → srcSize.x ≠ 0 → srcSize.y ≠ 0 →
      dstSize.x ≠ 0 ∧ dstSize.y ≠ 0) ∧
    (L "-Scale" ∉ args → srcSize.x ≠ 0 → srcSize.y ≠ 0 → dstSize.x ≠ 0 ∧ dstSize.y ≠ 0) := by
  have hkey : srcSize = env.srcSize ∧
      dstSize.x = (if params.dstSize.x ≠ UINT32_MAX then params.dstSize.x else env.srcSize.x) ∧
      dstSize.y = (if params.dstSize.y ≠ UINT32_MAX then params.dstSize.y else env.srcSize.y) := by
    rcases hentry with h | h
    · have := (ProcessFile_entry_mem ⟨params, gpu⟩ env file
        (Event.ProcessImageOnGpu dstSize srcSize dstFilePath) rfl h).2
      by_cases hm : params.interpolationMode = InterpolationMode.CAS
      · simp only [hm, if_true, Event.ProcessImageOnGpu.injEq] at this
        obtain ⟨h1, h2, _⟩ := this
        subst h1 h2
        exact ⟨rfl, rfl, rfl⟩
      · simp [hm] at this
    · have := (ProcessFile_entry_mem ⟨params, gpu⟩ env file
        (Event.ProcessImageOnCpu dstSize srcSize dstFilePath) rfl h).2
      by_cases hm : params.interpolationMode = InterpolationMode.CAS
      · simp [hm] at this
      · simp only [hm, if_false, Event.ProcessImageOnCpu.injEq] at this
        obtain ⟨h1, h2, _⟩ := this
        subst h1 h2
        exact ⟨rfl, rfl, rfl⟩
  obtain ⟨hs, hx, hy⟩ := hkey
  subst hs
  have hmax : UINT32_MAX ≠ 0 := by decide
  have hxz : dstSize.x = 0 ↔
      params.dstSize.x = 0 ∨ (params.dstSize.x = UINT32_MAX ∧ env.srcSize.x = 0) := by
    rw [hx]
    by_cases h : params.dstSize.x = UINT32_MAX
    · simp [h, hmax]
    · simp [h]
  have hyz : dstSize.y = 0 ↔
      params.dstSize.y = 0 ∨ (params.dstSize.y = UINT32_MAX ∧ env.srcSize.y = 0) := by
    rw [hy]
    by_cases h : params.dstSize.y = UINT32_MAX
    · simp [h, hmax]
    · simp [h]
  refine ⟨rfl, hxz, hyz, ?_, ?_⟩
  · intro h1 h2 h3 h4
    rw [Ne, Ne, hxz, hyz]
    simp [h1, h2, h3, h4]
  · intro hns h3 h4
    have hd := (ParseCommandLine_invariants wtoi args params hparse).2 hns
    rw [Ne, Ne, hxz, hyz, hd]
    simp [h3, h4, hmax]

/-- Witness for C6 (as amended): no `-Scale`, a 100 x 100 source. -/
theorem ProcessFile_dstSize_zero_iff_witness :
    ParseCommandLine wtoiAscii [L "a.png", L "b.png"] =
      Except.ok { filesToProcess := [⟨L "a.png", L "b.png"⟩] } ∧
    Event.ProcessImageOnGpu ⟨100, 100⟩ ⟨100, 100⟩ (L "b.png") ∈
      (ProcessFile ⟨{ filesToProcess := [⟨L "a.png", L "b.png"⟩] },
        some ⟨ShaderBlob.NoScaling0_Linear0, ShaderBlob.NoScaling1_Linear0⟩⟩
        (worldOk.file 0) ⟨L "a.png", L "b.png"⟩).trace ∧
    ((100 : Nat) ≠ 0 ∧ (100 : Nat) ≠ 0) :=
  ⟨by decide, by decide,
    (ProcessFile_dstSize_zero_iff wtoiAscii [L "a.png", L "b.png"]
      { filesToProcess := [⟨L "a.png", L "b.png"⟩] } (by decide)
      (some ⟨ShaderBlob.NoScaling0_Linear0, ShaderBlob.NoScaling1_Linear0⟩)
      (worldOk.file 0) ⟨L "a.png", L "b.png"⟩ ⟨100, 100⟩ ⟨100, 100⟩ (L "b.png")
      (Or.inl (by decide))).2.2.2.2 (by decide) (by decide) (by decide)⟩

/-- C6 fails as stated: `-Scale 0 0` is accepted, and the size handed to the GPU
pipeline for a 100 x 100 source is 0 x 0. -/
theorem ProcessFile_dstSize_zero_counterexample :
    ParseCommandLine wtoiAscii [L "-Scale", L "0", L "0", L "a.png", L "b.png"] =
      Except.ok { dstSize := ⟨0, 0⟩, filesToProcess := [⟨L "a.png", L "b.png"⟩] } ∧
    (wmain wtoiAscii worldOk
      [L "CasCmdLine.exe", L "-Scale", L "0", L "0", L "a.png", L "b.png"]).1.filter
      Event.isEntry = [Event.ProcessImageOnGpu ⟨0, 0⟩ ⟨100, 100⟩ (L "b.png")] := by
  decide

/-! ## Creation of the GPU resources -/

theorem Application_new_ok (hr : Nat → Bool) (params : LaunchParameters) (app : Application)
    (hnew : (Application.new hr params).result = Except.ok app) :
    hr 373 = true ∧ app.m_Params = params ∧
    (app.m_GpuResources.isSome = true ↔
      params.interpolationMode = InterpolationMode.CAS) := by
  by_cases hm : params.interpolationMode = InterpolationMode.CAS
  · simp only [Application.new, GpuResources.new, Run.bind_eq, Run.result_bind_CHECK_HR,
      InterpolationModeNeedsGpu, hm, decide_True, if_true, Run.pure_eq, Run.bind] at hnew
    cases h0 : hr 373 <;> cases h1 : hr 295 <;> cases h2 : hr 308 <;> cases h3 : hr 318 <;>
      cases h4 : hr 320 <;> simp [CHECK_HR, h0, h1, h2, h3, h4] at hnew
    subst hnew
    simp [hm]
  · simp only [Application.new, Run.bind_eq, Run.result_bind_CHECK_HR,
      InterpolationModeNeedsGpu, hm, decide_False, Run.pure_eq] at hnew
    cases h0 : hr 373 <;> simp [h0] at hnew
    subst hnew
    simp [hm]

theorem Application_new_trace (hr : Nat → Bool) (params : LaunchParameters) :
    Event.D3D11CreateDevice ∈ (Application.new hr params).trace ↔
      (hr 373 = true ∧ params.interpolationMode = InterpolationMode.CAS) := by
  by_cases hm : params.interpolationMode = InterpolationMode.CAS
  · simp [Application.new, GpuResources.new, Run.bind_eq, Run.trace_bind_CHECK_HR,
      InterpolationModeNeedsGpu, hm, Run.bind, CHECK_HR]
    cases h0 : hr 373 <;> cases h1 : hr 295 <;> cases h2 : hr 308 <;> cases h3 : hr 318 <;>
      cases h4 : hr 320 <;> simp
  · simp [Application.new, Run.bind_eq, Run.trace_bind_CHECK_HR,
      InterpolationModeNeedsGpu, hm, Run.pure_eq]

theorem ProcessFrom_cons (self : Application) (envs : Nat → FileEnv) (k : Nat)
    (file : FileToProcess) (files : List FileToProcess) :
    ProcessFrom self envs k (file :: files) =
      Run.bind (ProcessFile self (envs k) file) (fun _ => ProcessFrom self envs (k + 1) files) :=
  rfl

theorem ProcessFrom_mem (self : Application) (envs : Nat → FileEnv) (e : Event)
    (files : List FileToProcess) :
    ∀ k, e ∈ (ProcessFrom self envs k files).trace →
      ∃ j file, file ∈ files ∧ e ∈ (ProcessFile self (envs j) file).trace := by
  induction files with
  | nil =>
    intro k he
    exact absurd he (List.not_mem_nil e)
  | cons file files ih =>
    intro k he
    rw [ProcessFrom_cons] at he
    cases hres : (ProcessFile self (envs k) file).result with
    | error x =>
      rw [Run.trace_bind_of_error _ _ x hres] at he
      exact ⟨k, file, List.mem_cons_self _ _, he⟩
    | ok a =>
      rw [Run.trace_bind_of_ok _ _ a hres] at he
      rcases List.mem_append.1 he with h | h
      · exact ⟨k, file, List.mem_cons_self _ _, h⟩
      · obtain ⟨j, f, hf, hj⟩ := ih (k + 1) h
        exact ⟨j, f, List.mem_cons_of_mem _ hf, hj⟩

/-- C7 (as amended): the constructor of `Application` creates `m_GpuResources` if
and only if the mode needs the GPU (the mode is CAS), whatever `filesToProcess`
holds, the empty list included. Every file that reaches a pipeline goes to
`ProcessImageOnGpu` when the mode is CAS and to `ProcessImageOnCpu` otherwise; so
with a CPU mode the GPU context is never created and no file goes to the GPU
pipeline, and with the mode CAS the first file, once decoded, goes to it. -/
theorem GpuResources_created_iff_mode_needs_gpu (hr : Nat → Bool)
    (params : LaunchParameters) (app : Application)
    (hnew : (Application.new hr params).result = Except.ok app) :
    app.m_Params = params ∧
    (app.m_GpuResources.isSome = true ↔
      params.interpolationMode = InterpolationMode.CAS) ∧
    (Event.D3D11CreateDevice ∈ (Application.new hr params).trace ↔
      params.interpolationMode = InterpolationMode.CAS) ∧
    (∀ envs e, e ∈ (Process app envs).trace → e.isEntry = true →
      (params.interpolationMode = InterpolationMode.CAS →
        ∃ d s p, e = Event.ProcessImageOnGpu d s p) ∧
      (params.interpolationMode ≠ InterpolationMode.CAS →
        ∃ d s p, e = Event.ProcessImageOnCpu d s p)) ∧
    (∀ envs file files, params.filesToProcess = file :: files →
      (envs 0).hr 394 = true → (envs 0).hr 402 = true → (envs 0).hr 405 = true →
      ∃ d, (if params.interpolationMode = InterpolationMode.CAS then
          Event.ProcessImageOnGpu d (envs 0).srcSize file.dstFilePath
        else Event.ProcessImageOnCpu d (envs 0).srcSize file.dstFilePath) ∈
        (Process app envs).trace) := by
  obtain ⟨h373, hp, hsome⟩ := Application_new_ok hr params app hnew
  refine ⟨hp, hsome, ?_, ?_, ?_⟩
  · rw [Application_new_trace]
    simp [h373]
  · intro envs e he hentry
    obtain ⟨j, file, _, hmem⟩ := ProcessFrom_mem app envs e _ 0 he
    have h := (ProcessFile_entry_mem app (envs j) file e hentry hmem).2
    rw [hp] at h
    constructor
    · intro hm
      rw [if_pos hm] at h
      exact ⟨_, _, _, h⟩
    · intro hm
      rw [if_neg hm] at h
      exact ⟨_, _, _, h⟩
  · intro envs file files hfiles h1 h2 h3
    have hent := ProcessFile_entries app (envs 0) file
    rw [if_pos ⟨h1, h2, h3⟩, hp] at hent
    refine ⟨⟨if params.dstSize.x ≠ UINT32_MAX then params.dstSize.x else (envs 0).srcSize.x,
      if params.dstSize.y ≠ UINT32_MAX then params.dstSize.y else (envs 0).srcSize.y⟩, ?_⟩
    have hin : (if params.interpolationMode = InterpolationMode.CAS then
          Event.ProcessImageOnGpu
            ⟨if params.dstSize.x ≠ UINT32_MAX then params.dstSize.x else (envs 0).srcSize.x,
             if params.dstSize.y ≠ UINT32_MAX then params.dstSize.y else (envs 0).srcSize.y⟩
            (envs 0).srcSize file.dstFilePath
        else
          Event.ProcessImageOnCpu
            ⟨if params.dstSize.x ≠ UINT32_MAX then params.dstSize.x else (envs 0).srcSize.x,
             if params.dstSize.y ≠ UINT32_MAX then params.dstSize.y else (envs 0).srcSize.y⟩
            (envs 0).srcSize file.dstFilePath) ∈ (ProcessFile app (envs 0) file).trace := by
      apply List.mem_of_mem_filter (p := Event.isEntry)
      rw [hent]
      exact List.mem_singleton_self _
    unfold Process
    rw [hp, hfiles, ProcessFrom_cons]
    cases hres : (ProcessFile app (envs 0) file).result with
    | error x =>
      rw [Run.trace_bind_of_error _ _ x hres]
      exact hin
    | ok a =>
      rw [Run.trace_bind_of_ok _ _ a hres]
      exact List.mem_append_left _ hin

/-- Witness for C7 (as amended): `-Mode Cubic` with one file. -/
theorem GpuResources_created_iff_mode_needs_gpu_witness :
    ParseCommandLine wtoiAscii [L "-Mode", L "Cubic", L "a.png", L "b.png"] =
      Except.ok paramsCubic ∧
    (Application.new worldOk.hr paramsCubic).result = Except.ok ⟨paramsCubic, none⟩ ∧
    ((none : Option GpuResources).isSome = true ↔
      paramsCubic.interpolationMode = InterpolationMode.CAS) :=
  ⟨by decide, by decide,
    (GpuResources_created_iff_mode_needs_gpu worldOk.hr paramsCubic ⟨paramsCubic, none⟩
      (by decide)).2.1⟩

/-- C7 fails as stated: the arguments `-FP16` alone are accepted with an empty
file list and the default mode CAS; the constructor creates the GPU resources
(device, buffer and both shaders), and no file is routed anywhere. -/
theorem GpuResources_created_without_files_counterexample :
    ParseCommandLine wtoiAscii [L "-FP16"] = Except.ok { fp16 := true } ∧
    ({ fp16 := true } : LaunchParameters).filesToProcess = [] ∧
    (Application.new worldOk.hr { fp16 := true }).result =
      Except.ok ⟨{ fp16 := true },
        some ⟨ShaderBlob.NoScaling0_Linear1, ShaderBlob.NoScaling1_Linear1⟩⟩ ∧
    wmain wtoiAscii worldOk [L "CasCmdLine.exe", L "-FP16"] =
      ([Event.CoInitializeEx, Event.CoCreateInstance, Event.D3D11CreateDevice,
        Event.CreateBuffer, Event.CreateComputeShader ShaderBlob.NoScaling0_Linear1,
        Event.CreateComputeShader ShaderBlob.NoScaling1_Linear1, Event.CoUninitialize],
       ExitStatus.returned 0) := by
  decide

/-! ## The batch -/

theorem ProcessFrom_all_ok (self : Application) (envs : Nat → FileEnv)
    (files : List FileToProcess) :
    ∀ k, (∀ j (hj : j < files.length),
        (ProcessFile self (envs (k + j)) (files.get ⟨j, hj⟩)).result = Except.ok ()) →
      (ProcessFrom self envs k files).result = Except.ok () ∧
      (ProcessFrom self envs k files).trace = runsInOrder self envs k files := by
  induction files with
  | nil =>
    intro k _
    exact ⟨rfl, rfl⟩
  | cons file files ih =>
    intro k hall
    have h0 : (ProcessFile self (envs k) file).result = Except.ok () :=
      hall 0 (Nat.succ_pos _)
    have hrest : ∀ j (hj : j < files.length),
        (ProcessFile self (envs (k + 1 + j)) (files.get ⟨j, hj⟩)).result = Except.ok () := by
      intro j hj
      have := hall (j + 1) (Nat.succ_lt_succ hj)
      rw [show k + 1 + j = k + (j + 1) from by omega]
      exact this
    obtain ⟨ih1, ih2⟩ := ih (k + 1) hrest
    rw [ProcessFrom_cons, Run.result_bind_of_ok _ _ () h0, Run.trace_bind_of_ok _ _ () h0]
    exact ⟨ih1, by rw [ih2]; rfl⟩

theorem ProcessFrom_first_failure (self : Application) (envs : Nat → FileEnv)
    (pre : List FileToProcess) (file : FileToProcess) (post : List FileToProcess)
    (e : Failure) :
    ∀ k, (∀ j (hj : j < pre.length),
        (ProcessFile self (envs (k + j)) (pre.get ⟨j, hj⟩)).result = Except.ok ()) →
      (ProcessFile self (envs (k + pre.length)) file).result = Except.error e →
      (ProcessFrom self envs k (pre ++ file :: post)).result = Except.error e ∧
      (ProcessFrom self envs k (pre ++ file :: post)).trace =
        runsInOrder self envs k pre ++ (ProcessFile self (envs (k + pre.length)) file).trace := by
  induction pre with
  | nil =>
    intro k _ hfail
    simp only [List.length_nil, Nat.add_zero] at hfail
    simp only [List.nil_append, ProcessFrom_cons, List.length_nil, Nat.add_zero, runsInOrder]
    rw [Run.result_bind_of_error _ _ e hfail, Run.trace_bind_of_error _ _ e hfail]
    exact ⟨rfl, rfl⟩
  | cons p pre ih =>
    intro k hall hfail
    have h0 : (ProcessFile self (envs k) p).result = Except.ok () :=
      hall 0 (Nat.succ_pos _)
    have hrest : ∀ j (hj : j < pre.length),
        (ProcessFile self (envs (k + 1 + j)) (pre.get ⟨j, hj⟩)).result = Except.ok () := by
      intro j hj
      have := hall (j + 1) (Nat.succ_lt_succ hj)
      rw [show k + 1 + j = k + (j + 1) from by omega]
      exact this
    have hfail2 : (ProcessFile self (envs (k + 1 + pre.length)) file).result =
        Except.error e := by
      rw [show k + 1 + pre.length = k + (p :: pre).length from by simp; omega]
      exact hfail
    obtain ⟨ih1, ih2⟩ := ih (k + 1) hrest hfail2
    rw [List.cons_append, ProcessFrom_cons, Run.result_bind_of_ok _ _ () h0,
      Run.trace_bind_of_ok _ _ () h0]
    refine ⟨ih1, ?_⟩
    rw [ih2]
    simp only [runsInOrder, List.append_assoc, List.length_cons]
    rw [show k + 1 + pre.length = k + (pre.length + 1) from by omega]

theorem ProcessFrom_isAbort (self : Application) (envs : Nat → FileEnv)
    (hgpu : self.m_Params.interpolationMode = InterpolationMode.CAS →
      self.m_GpuResources.isSome = true)
    (hmode : self.m_Params.interpolationMode ≠ InterpolationMode.Count)
    (files : List FileToProcess) :
    ∀ k, (ProcessFrom self envs k files).isAbort = false := by
  induction files with
  | nil => intro k; rfl
  | cons file files ih =>
    intro k
    rw [ProcessFrom_cons]
    have h0 := ProcessFile_isAbort self (envs k) file hgpu hmode
    cases hres : (ProcessFile self (envs k) file).result with
    | error x =>
      unfold Run.isAbort at h0 ⊢
      rw [Run.result_bind_of_error _ _ x hres]
      rw [hres] at h0
      exact h0
    | ok a =>
      unfold Run.isAbort
      rw [Run.result_bind_of_ok _ _ a hres]
      exact ih (k + 1)

theorem wmainBody_of_parse_ok (wtoi : WString → Int) (world : World) (argv : List WString)
    (params : LaunchParameters) (hparse : ParseCommandLine wtoi argv.tail = Except.ok params) :
    wmainBody wtoi world argv =
      withCoInitializeObj
        (Run.bind (Application.new world.hr params) (fun app => Process app world.file)) := by
  unfold wmainBody
  rw [hparse]
  rfl

theorem wmain_of_Process (wtoi : WString → Int) (world : World) (argv : List WString)
    (app : Application) (hargc : 1 < argv.length)
    (hparse : ParseCommandLine wtoi argv.tail = Except.ok app.m_Params)
    (hnew : (Application.new world.hr app.m_Params).result = Except.ok app) :
    ((Process app world.file).result = Except.ok () →
      wmain wtoi world argv =
        (Event.CoInitializeEx :: ((Application.new world.hr app.m_Params).trace ++
          (Process app world.file).trace ++ [Event.CoUninitialize]),
         ExitStatus.returned 0)) ∧
    (∀ e, (Process app world.file).result = Except.error e →
      wmain wtoi world argv =
        (Event.CoInitializeEx :: ((Application.new world.hr app.m_Params).trace ++
          (Process app world.file).trace ++ [Event.CoUninitialize, Event.fprintf_ERROR e]),
         ExitStatus.returned (-1))) := by
  have hlen : ¬ argv.length ≤ 1 := by omega
  obtain ⟨_, _, hsome⟩ := Application_new_ok world.hr app.m_Params app hnew
  have hmode := (ParseCommandLine_invariants wtoi argv.tail app.m_Params hparse).1
  have hab : (Process app world.file).isAbort = false :=
    ProcessFrom_isAbort app world.file (fun h => hsome.2 h) hmode _ 0
  have hbody := wmainBody_of_parse_ok wtoi world argv app.m_Params hparse
  have hres : (Run.bind (Application.new world.hr app.m_Params)
      (fun app => Process app world.file)).result = (Process app world.file).result :=
    Run.result_bind_of_ok _ _ app hnew
  have htr : (Run.bind (Application.new world.hr app.m_Params)
      (fun app => Process app world.file)).trace =
      (Application.new world.hr app.m_Params).trace ++ (Process app world.file).trace :=
    Run.trace_bind_of_ok _ _ app hnew
  constructor
  · intro hok
    unfold wmain
    rw [if_neg hlen]
    simp only [hbody, withCoInitializeObj, hres, htr, hok, List.cons_append]
  · intro e herr
    unfold Run.isAbort at hab
    rw [herr] at hab
    unfold wmain
    rw [if_neg hlen]
    cases e <;>
      first
        | (simp at hab; done)
        | simp [hbody, withCoInitializeObj, hres, htr, herr]

/-- C8: `Application::Process` handles the files of `filesToProcess` in list order
and stops at the first failure. If the files before position `k` are processed
without failure and the file at `k` fails, `Process` fails with that failure and
its events are those of processing each of the first `k` files once, in order,
followed by those of the failing file: no later file is touched; and `wmain`
reports the error and returns -1. If no file fails, `Process` returns, its events
are those of processing every file once, in order, and `wmain` returns 0. -/
theorem Process_stops_at_first_failure (self : Application) (envs : Nat → FileEnv) :
    (∀ pre file post e, self.m_Params.filesToProcess = pre ++ file :: post →
      (∀ j (hj : j < pre.length),
        (ProcessFile self (envs j) (pre.get ⟨j, hj⟩)).result = Except.ok ()) →
      (ProcessFile self (envs pre.length) file).result = Except.error e →
      (Process self envs).result = Except.error e ∧
      (Process self envs).trace =
        runsInOrder self envs 0 pre ++ (ProcessFile self (envs pre.length) file).trace) ∧
    ((∀ j (hj : j < self.m_Params.filesToProcess.length),
        (ProcessFile self (envs j) (self.m_Params.filesToProcess.get ⟨j, hj⟩)).result =
          Except.ok ()) →
      (Process self envs).result = Except.ok () ∧
      (Process self envs).trace = runsInOrder self envs 0 self.m_Params.filesToProcess) ∧
    (∀ wtoi hr argv, 1 < argv.length →
      ParseCommandLine wtoi argv.tail = Except.ok self.m_Params →
      (Application.new hr self.m_Params).result = Except.ok self →
      ((Process self envs).result = Except.ok () →
        wmain wtoi ⟨hr, envs⟩ argv =
          (Event.CoInitializeEx :: ((Application.new hr self.m_Params).trace ++
            (Process self envs).trace ++ [Event.CoUninitialize]),
           ExitStatus.returned 0)) ∧
      (∀ e, (Process self envs).result = Except.error e →
        wmain wtoi ⟨hr, envs⟩ argv =
          (Event.CoInitializeEx :: ((Application.new hr self.m_Params).trace ++
            (Process self envs).trace ++ [Event.CoUninitialize, Event.fprintf_ERROR e]),
           ExitStatus.returned (-1)))) := by
  refine ⟨?_, ?_, ?_⟩
  · intro pre file post e hfiles hpre hfail
    unfold Process
    rw [hfiles]
    have := ProcessFrom_first_failure self envs pre file post e 0
      (by simpa using hpre) (by simpa using hfail)
    simpa using this
  · intro hall
    unfold Process
    exact ProcessFrom_all_ok self envs _ 0 (by simpa using hall)
  · intro wtoi hr argv hargc hparse hnew
    exact wmain_of_Process wtoi ⟨hr, envs⟩ argv self hargc hparse hnew

/-- Witness for C8: three files, the second of which cannot be decoded. -/
theorem Process_stops_at_first_failure_witness :
    ((Process appThreeFiles worldSecondFails.file).result =
        Except.error (Failure.CHECK_HR 394) ∧
      (Process appThreeFiles worldSecondFails.file).trace =
        runsInOrder appThreeFiles worldSecondFails.file 0 [⟨L "a.png", L "b.png"⟩] ++
          (ProcessFile appThreeFiles (worldSecondFails.file 1) ⟨L "c.png", L "d.png"⟩).trace) ∧
    Event.wprintf_Loading (L "e.png") ∉ (Process appThreeFiles worldSecondFails.file).trace ∧
    (wmain wtoiAscii worldSecondFails
      [L "CasCmdLine.exe", L "a.png", L "b.png", L "c.png", L "d.png", L "e.png",
        L "f.png"]).2 = ExitStatus.returned (-1) :=
  ⟨(Process_stops_at_first_failure appThreeFiles worldSecondFails.file).1
      [⟨L "a.png", L "b.png"⟩] ⟨L "c.png", L "d.png"⟩ [⟨L "e.png", L "f.png"⟩]
      (Failure.CHECK_HR 394) rfl (by decide) (by decide),
    by decide, by decide⟩

/-! ## Malformed file list -/

/-- C9: when the options loop of `ParseCommandLine` ends with an odd number of
arguments left, `ParseCommandLine` throws "Invalid command line syntax.", and
`wmain` prints the error and returns -1 having done nothing else: no COM
initialisation, no `Application`, no file. -/
theorem ParseCommandLine_odd_file_count_fails (wtoi : WString → Int) (args : List WString)
    (p : LaunchParameters) (rest : List WString)
    (hopt : ParseOptions wtoi {} args = Except.ok (p, rest)) (hodd : rest.length % 2 = 1) :
    ParseCommandLine wtoi args = Except.error Failure.InvalidCommandLineSyntax ∧
    ∀ (world : World) (exe : WString),
      wmain wtoi world (exe :: args) =
        ([Event.fprintf_ERROR Failure.InvalidCommandLineSyntax], ExitStatus.returned (-1)) := by
  have hparse : ParseCommandLine wtoi args = Except.error Failure.InvalidCommandLineSyntax := by
    unfold ParseCommandLine
    rw [hopt]
    simp [hodd]
  refine ⟨hparse, ?_⟩
  intro world exe
  have hne : args ≠ [] := by
    intro h
    subst h
    simp only [ParseOptions, Except.ok.injEq, Prod.mk.injEq] at hopt
    obtain ⟨_, h2⟩ := hopt
    subst h2
    simp at hodd
  have hlen : ¬ (exe :: args).length ≤ 1 := by
    cases args with
    | nil => exact absurd rfl hne
    | cons a l => simp
  unfold wmain
  rw [if_neg hlen]
  simp [wmainBody, hparse, fail]

/-- Witness for C9: `-Mode Cubic a.png` leaves one argument after the options. -/
theorem ParseCommandLine_odd_file_count_fails_witness :
    ParseOptions wtoiAscii {} [L "-Mode", L "Cubic", L "a.png"] =
      Except.ok ({ interpolationMode := InterpolationMode.Cubic }, [L "a.png"]) ∧
    ParseCommandLine wtoiAscii [L "-Mode", L "Cubic", L "a.png"] =
      Except.error Failure.InvalidCommandLineSyntax ∧
    wmain wtoiAscii worldOk [L "CasCmdLine.exe", L "-Mode", L "Cubic", L "a.png"] =
      ([Event.fprintf_ERROR Failure.InvalidCommandLineSyntax], ExitStatus.returned (-1)) :=
  ⟨by decide,
    (ParseCommandLine_odd_file_count_fails wtoiAscii [L "-Mode", L "Cubic", L "a.png"]
      { interpolationMode := InterpolationMode.Cubic } [L "a.png"] (by decide) (by decide)).1,
    (ParseCommandLine_odd_file_count_fails wtoiAscii [L "-Mode", L "Cubic", L "a.png"]
      { interpolationMode := InterpolationMode.Cubic } [L "a.png"] (by decide) (by decide)).2
      worldOk (L "CasCmdLine.exe")⟩

/-! ## Sharpness -/

/-- C10: sharpness is never validated. For every value `v`, `-Sharpness <v>` makes
the options loop store `(float)_wtof(v)` and go on with the next argument, so no
error is raised because of `v`; a command line `-Sharpness <v> <src> <dst>` is
accepted with exactly that value stored; and every `CasSetup` call that
`ProcessImageOnGpu` makes through `GpuResources::CAS` gets the stored
`params.sharpness` itself as its sharpness argument, and such a call is made once
the resources before it are created. -/
theorem Sharpness_passed_through_unchecked (wtoi : WString → Int) (v : WString) :
    (∀ self rest, ParseOptions wtoi self (L "-Sharpness" :: v :: rest) =
      ParseOptions wtoi { self with sharpness := float.of_wtof v } rest) ∧
    (∀ src dst, src.head? ≠ some 45 →
      ParseCommandLine wtoi [L "-Sharpness", v, src, dst] =
        Except.ok { sharpness := float.of_wtof v, filesToProcess := [⟨src, dst⟩] }) ∧
    (∀ (self : Application) (env : FileEnv) (dstSize srcSize : uvec2) (dstFilePath : WString),
      (∀ a b c d f, Event.CasSetup a b c d f ∈
          (ProcessImageOnGpu self env dstSize srcSize dstFilePath).trace →
        a = self.m_Params.sharpness) ∧
      (self.m_GpuResources.isSome = true → env.hr 432 = true → env.hr 433 = true →
        env.hr 452 = true → env.hr 463 = true → env.hr 468 = true → env.hr 473 = true →
        Event.CasSetup self.m_Params.sharpness (float.of_uint32 srcSize.x)
          (float.of_uint32 srcSize.y) (float.of_uint32 dstSize.x) (float.of_uint32 dstSize.y) ∈
          (ProcessImageOnGpu self env dstSize srcSize dstFilePath).trace)) := by
  refine ⟨fun self rest => ParseOptions_Sharpness wtoi self v rest, ?_, ?_⟩
  · intro src dst hsrc
    unfold ParseCommandLine
    rw [ParseOptions_Sharpness, ParseOptions_cons, if_neg hsrc]
    simp [ParseFiles]
  · intro self env dstSize srcSize dstFilePath
    constructor
    · intro a b c d f hmem
      obtain ⟨hhead, htail⟩ := ProcessImageOnGpu_events
        (Q := fun e => ∀ a b c d f, e = Event.CasSetup a b c d f → a = self.m_Params.sharpness)
        self env dstSize srcSize dstFilePath (fun e _ h => h)
      cases ht : (ProcessImageOnGpu self env dstSize srcSize dstFilePath).trace with
      | nil => rw [ht] at hmem; exact absurd hmem (List.not_mem_nil _)
      | cons x l =>
        rw [ht] at hmem hhead htail
        simp only [List.head?_cons, Option.some.injEq] at hhead
        simp only [List.tail_cons] at htail
        rcases List.mem_cons.1 hmem with h | h
        · rw [hhead] at h
          cases h
        · exact htail _ h a b c d f rfl
    · intro hsome h1 h2 h3 h4 h5 h6
      obtain ⟨gpu, hg⟩ := Option.isSome_iff_exists.1 hsome
      cases hw : env.CasSupportScaling <;>
        simp [ProcessImageOnGpu, hg, Run.bind_eq, Run.trace_bind_CHECK_HR, Run.trace_bind_emit,
          Run.trace_bind_CAS, CAS_trace, Run.pure_bind, h1, h2, h3, h4, h5, h6, hw]

/-- Witness for C10: the out-of-range value `2.5` is accepted and stored. -/
theorem Sharpness_passed_through_unchecked_witness :
    (L "a.png").head? ≠ some 45 ∧
    ParseCommandLine wtoiAscii [L "-Sharpness", L "2.5", L "a.png", L "b.png"] =
      Except.ok { sharpness := float.of_wtof (L "2.5"),
                  filesToProcess := [⟨L "a.png", L "b.png"⟩] } :=
  ⟨by decide,
    (Sharpness_passed_through_unchecked wtoiAscii (L "2.5")).2.1 (L "a.png") (L "b.png")
      (by decide)⟩

/-! ## Pixel buffers of the GPU pipeline -/

theorem SaveFile_no_buffer_events (env : FileEnv) (filePath : WString) :
    ∀ e ∈ (SaveFile env filePath).trace,
      (∀ w h s z v, e ≠ Event.CopyPixels w h s z v) ∧
      (∀ w h f s z, e ≠ Event.CreateBitmapFromMemory w h f s z) := by
  simp only [SaveFile, Run.bind_eq, Run.trace_bind_CHECK_HR, Run.trace_bind_emit,
    Run.trace_bind_CHECK_BOOL, CHECK_HR_trace, List.forall_mem_cons, forall_mem_ite_nil,
    List.not_mem_nil, false_imp_iff, implies_true, and_true]
  simp

theorem ProcessImageOnGpu_buffer_events (self : Application) (env : FileEnv)
    (dstSize srcSize : uvec2) (dstFilePath : WString) :
    ∀ e ∈ (ProcessImageOnGpu self env dstSize srcSize dstFilePath).trace,
      (∀ w h s z v, e = Event.CopyPixels w h s z v →
        w = srcSize.x ∧ h = srcSize.y ∧
        s = u32 (srcSize.x * (if self.m_Params.fp16 = true then 8 else 4)) ∧
        z = u32 (srcSize.y * s) ∧ v = z) ∧
      (∀ w h f s z, e = Event.CreateBitmapFromMemory w h f s z →
        w = dstSize.x ∧ h = dstSize.y ∧
        f = (if self.m_Params.fp16 = true
          then WICPixelFormatGUID.GUID_WICPixelFormat64bppRGBAHalf
          else WICPixelFormatGUID.GUID_WICPixelFormat32bppRGBA) ∧
        s = env.RowPitch ∧ z = u32 (env.RowPitch * dstSize.y)) := by
  have hsave : ∀ e ∈ (SaveFile env dstFilePath).trace,
      (∀ w h s z v, e = Event.CopyPixels w h s z v →
        w = srcSize.x ∧ h = srcSize.y ∧
        s = u32 (srcSize.x * (if self.m_Params.fp16 = true then 8 else 4)) ∧
        z = u32 (srcSize.y * s) ∧ v = z) ∧
      (∀ w h f s z, e = Event.CreateBitmapFromMemory w h f s z →
        w = dstSize.x ∧ h = dstSize.y ∧
        f = (if self.m_Params.fp16 = true
          then WICPixelFormatGUID.GUID_WICPixelFormat64bppRGBAHalf
          else WICPixelFormatGUID.GUID_WICPixelFormat32bppRGBA) ∧
        s = env.RowPitch ∧ z = u32 (env.RowPitch * dstSize.y)) := by
    intro e he
    obtain ⟨h1, h2⟩ := SaveFile_no_buffer_events env dstFilePath e he
    exact ⟨fun w h s z v hh => absurd hh (h1 w h s z v),
      fun w h f s z hh => absurd hh (h2 w h f s z)⟩
  cases hg : self.m_GpuResources with
  | none =>
    simp [ProcessImageOnGpu, hg, Run.bind_eq, Run.trace_bind_emit, fail]
  | some gpu =>
    simp only [ProcessImageOnGpu, hg, Run.bind_eq, Run.trace_bind_CHECK_HR, Run.trace_bind_emit,
      Run.trace_bind_CHECK_BOOL, CHECK_HR_trace, List.forall_mem_cons, forall_mem_ite_nil,
      List.not_mem_nil, false_imp_iff, implies_true, and_true, Run.trace_bind_CAS, CAS_trace,
      List.forall_mem_append, Run.trace_ite, forall_mem_ite, Run.pure_bind]
    repeat' first
      | exact hsave
      | apply And.intro
      | intro _
    all_goals
      rename_i heq
      cases heq <;> rfl

/-- C11 (as amended): in `ProcessImageOnGpu`, with 4 bytes per pixel without
`fp16` and 8 with it, the buffer uploaded as the source has row stride
`srcWidth * bpp` and size `stride * srcHeight`, without row padding, whenever these
two products fit in 32 bits; the bitmap created from the read-back destination
has as its stride the `RowPitch` that `Map` reports for the staging texture, and
size `RowPitch * dstHeight` in 32-bit arithmetic, which is `dstWidth * bpp` only
when the texture is mapped without row padding. Both buffers are built once the
calls before them succeed. -/
theorem ProcessImageOnGpu_buffer_strides (self : Application) (env : FileEnv)
    (dstSize srcSize : uvec2) (dstFilePath : WString)
    (hstride : srcSize.x * bytesPerPixel self.m_Params.fp16 < 2 ^ 32)
    (hsize : srcSize.y * (srcSize.x * bytesPerPixel self.m_Params.fp16) < 2 ^ 32) :
    (∀ w h s z v, Event.CopyPixels w h s z v ∈
        (ProcessImageOnGpu self env dstSize srcSize dstFilePath).trace →
      w = srcSize.x ∧ h = srcSize.y ∧
      s = srcSize.x * bytesPerPixel self.m_Params.fp16 ∧ z = s * srcSize.y ∧ v = z) ∧
    (∀ w h f s z, Event.CreateBitmapFromMemory w h f s z ∈
        (ProcessImageOnGpu self env dstSize srcSize dstFilePath).trace →
      w = dstSize.x ∧ h = dstSize.y ∧ s = env.RowPitch ∧ z = u32 (s * dstSize.y) ∧
      (env.RowPitch = dstSize.x * bytesPerPixel self.m_Params.fp16 →
        env.RowPitch * dstSize.y < 2 ^ 32 →
        s = dstSize.x * bytesPerPixel self.m_Params.fp16 ∧ z = s * dstSize.y)) ∧
    (self.m_GpuResources.isSome = true → env.hr 432 = true → env.hr 433 = true →
      Event.CopyPixels srcSize.x srcSize.y (srcSize.x * bytesPerPixel self.m_Params.fp16)
        (srcSize.x * bytesPerPixel self.m_Params.fp16 * srcSize.y)
        (srcSize.x * bytesPerPixel self.m_Params.fp16 * srcSize.y) ∈
        (ProcessImageOnGpu self env dstSize srcSize dstFilePath).trace) ∧
    (self.m_GpuResources.isSome = true → env.hr 432 = true → env.hr 433 = true →
      env.hr 452 = true → env.hr 463 = true → env.hr 468 = true → env.hr 473 = true →
      env.hr 484 = true → env.hr 492 = true →
      ∃ f, Event.CreateBitmapFromMemory dstSize.x dstSize.y f env.RowPitch
        (u32 (env.RowPitch * dstSize.y)) ∈
        (ProcessImageOnGpu self env dstSize srcSize dstFilePath).trace) := by
  have hbpp : (if self.m_Params.fp16 = true then 8 else 4) =
      bytesPerPixel self.m_Params.fp16 := rfl
  have hs : u32 (srcSize.x * bytesPerPixel self.m_Params.fp16) =
      srcSize.x * bytesPerPixel self.m_Params.fp16 := Nat.mod_eq_of_lt hstride
  have hz : u32 (srcSize.y * (srcSize.x * bytesPerPixel self.m_Params.fp16)) =
      srcSize.x * bytesPerPixel self.m_Params.fp16 * srcSize.y := by
    rw [Nat.mul_comm srcSize.y]
    exact Nat.mod_eq_of_lt (by rw [Nat.mul_comm]; exact hsize)
  refine ⟨?_, ?_, ?_, ?_⟩
  · intro w h s z v hmem
    obtain ⟨h1, h2, h3, h4, h5⟩ :=
      (ProcessImageOnGpu_buffer_events self env dstSize srcSize dstFilePath _ hmem).1
        w h s z v rfl
    rw [hbpp, hs] at h3
    subst h3
    rw [hz] at h4
    exact ⟨h1, h2, rfl, h4, h5⟩
  · intro w h f s z hmem
    obtain ⟨h1, h2, _, h4, h5⟩ :=
      (ProcessImageOnGpu_buffer_events self env dstSize srcSize dstFilePath _ hmem).2
        w h f s z rfl
    subst h4
    refine ⟨h1, h2, rfl, h5, ?_⟩
    intro hp hlt
    refine ⟨hp, ?_⟩
    rw [h5]
    exact Nat.mod_eq_of_lt hlt
  · intro hsome h1 h2
    obtain ⟨gpu, hg⟩ := Option.isSome_iff_exists.1 hsome
    have hz2 : u32 (srcSize.y * u32 (srcSize.x * if self.m_Params.fp16 = true then 8 else 4)) =
        srcSize.x * bytesPerPixel self.m_Params.fp16 * srcSize.y := by
      rw [hbpp, hs, hz]
    simp only [ProcessImageOnGpu, hg, Run.bind_eq, Run.trace_bind_CHECK_HR, Run.trace_bind_emit,
      h1, h2, if_true, hz2]
    rw [hbpp, hs]
    simp
  · intro hsome h1 h2 h3 h4 h5 h6 h7 h8
    obtain ⟨gpu, hg⟩ := Option.isSome_iff_exists.1 hsome
    refine ⟨if self.m_Params.fp16 = true
      then WICPixelFormatGUID.GUID_WICPixelFormat64bppRGBAHalf
      else WICPixelFormatGUID.GUID_WICPixelFormat32bppRGBA, ?_⟩
    cases hw : env.CasSupportScaling <;>
      simp [ProcessImageOnGpu, hg, Run.bind_eq, Run.trace_bind_CHECK_HR, Run.trace_bind_emit,
        Run.trace_bind_CAS, CAS_trace, Run.pure_bind, h1, h2, h3, h4, h5, h6, h7, h8, hw]

/-- Witness for C11 (as amended): a 100 x 100 source without `fp16` is uploaded with
stride 400 and size 40000. -/
theorem ProcessImageOnGpu_buffer_strides_witness :
    (100 * bytesPerPixel false < 2 ^ 32 ∧ 100 * (100 * bytesPerPixel false) < 2 ^ 32) ∧
    Event.CopyPixels 100 100 400 40000 40000 ∈
      (ProcessImageOnGpu appThreeFiles (worldOk.file 0) ⟨50, 50⟩ ⟨100, 100⟩ (L "b.png")).trace :=
  ⟨by decide,
    (ProcessImageOnGpu_buffer_strides appThreeFiles (worldOk.file 0) ⟨50, 50⟩ ⟨100, 100⟩
      (L "b.png") (by decide) (by decide)).2.2.1 rfl rfl rfl⟩

/-- C11 fails as stated, in two ways. When the staging texture is mapped with rows
padded to 256 bytes, the bitmap created from the read-back 50 x 50 destination
has stride 256, not 50 * 4 = 200. And for a source 1073741824 pixels wide the
32-bit product `srcSize.x * 4` wraps: the source buffer has stride 0 and size 0. -/
theorem ProcessImageOnGpu_buffer_strides_counterexample :
    (Event.CreateBitmapFromMemory 50 50 WICPixelFormatGUID.GUID_WICPixelFormat32bppRGBA
        256 12800 ∈
      (wmain wtoiAscii worldPaddedRows
        [L "CasCmdLine.exe", L "-Scale", L "50", L "50", L "a.png", L "b.png"]).1 ∧
      256 ≠ 50 * bytesPerPixel false) ∧
    (Event.CopyPixels 1073741824 1 0 0 0 ∈
      (wmain wtoiAscii worldWideSource [L "CasCmdLine.exe", L "a.png", L "b.png"]).1 ∧
      0 ≠ 1073741824 * bytesPerPixel false) := by
  decide

/-! ## Assertions -/

theorem Application_new_isAbort (hr : Nat → Bool) (params : LaunchParameters) :
    (Application.new hr params).isAbort = false := by
  by_cases hm : params.interpolationMode = InterpolationMode.CAS
  · cases h0 : hr 373 <;> cases h1 : hr 295 <;> cases h2 : hr 308 <;> cases h3 : hr 318 <;>
      cases h4 : hr 320 <;>
      simp [Application.new, GpuResources.new, Run.bind_eq, Run.bind, CHECK_HR, Run.isAbort,
        InterpolationModeNeedsGpu, Run.pure_eq, hm, h0, h1, h2, h3, h4]
  · cases h0 : hr 373 <;>
      simp [Application.new, Run.bind_eq, Run.bind, CHECK_HR, Run.isAbort,
        InterpolationModeNeedsGpu, Run.pure_eq, hm, h0]

theorem withCoInitializeObj_result {α : Type} (body : Run α) :
    (withCoInitializeObj body).result = body.result := by
  unfold withCoInitializeObj
  split <;> rfl

theorem wmain_not_aborted_of_body (wtoi : WString → Int) (world : World)
    (argv : List WString) (h : (wmainBody wtoi world argv).isAbort = false) :
    (wmain wtoi world argv).2 ≠ ExitStatus.aborted := by
  unfold wmain
  by_cases hlen : argv.length ≤ 1
  · simp [hlen]
  · rw [if_neg hlen]
    unfold Run.isAbort at h
    cases hres : (wmainBody wtoi world argv).result with
    | ok a => simp [hres]
    | error e =>
      rw [hres] at h
      cases e <;> simp [hres] at h ⊢

/-- C12: on every run that starts from an accepted argument list, neither
assertion of the pipeline fails. The parsed mode is never `Count`; once the
constructor of `Application` has returned, every entry into `ProcessImageOnGpu`
happens with `m_GpuResources` created (so `assert(m_GpuResources)` holds), every
entry into `ProcessImageOnCpu` happens with a mode among NearestNeighbor, Linear,
Cubic, HighQualityCubic and Fant, for which
`InterpolationModeToWicInterpolationMode` returns without reaching `assert(0)`;
`Process` is never ended by a failed assertion, and `wmain` is never aborted. -/
theorem assertions_hold_after_accepted_parse (wtoi : WString → Int) (world : World)
    (argv : List WString) (params : LaunchParameters)
    (hparse : ParseCommandLine wtoi argv.tail = Except.ok params) :
    params.interpolationMode ≠ InterpolationMode.Count ∧
    (∀ app, (Application.new world.hr params).result = Except.ok app →
      (∀ e ∈ (Process app world.file).trace,
        (∀ d s p, e = Event.ProcessImageOnGpu d s p → app.m_GpuResources.isSome = true) ∧
        (∀ d s p, e = Event.ProcessImageOnCpu d s p →
          params.interpolationMode ∈ [InterpolationMode.NearestNeighbor,
            InterpolationMode.Linear, InterpolationMode.Cubic,
            InterpolationMode.HighQualityCubic, InterpolationMode.Fant] ∧
          ∃ m, InterpolationModeToWicInterpolationMode params.interpolationMode = pure m)) ∧
      (∀ line, (Process app world.file).result ≠ Except.error (Failure.assert line))) ∧
    (wmain wtoi world argv).2 ≠ ExitStatus.aborted := by
  have hmode := (ParseCommandLine_invariants wtoi argv.tail params hparse).1
  have hprocess : ∀ app, (Application.new world.hr params).result = Except.ok app →
      (Process app world.file).isAbort = false := by
    intro app hnew
    obtain ⟨_, hp, hsome⟩ := Application_new_ok world.hr params app hnew
    exact ProcessFrom_isAbort app world.file (fun h => hsome.2 (hp ▸ h)) (hp ▸ hmode) _ 0
  refine ⟨hmode, ?_, ?_⟩
  · intro app hnew
    obtain ⟨_, hp, hsome⟩ := Application_new_ok world.hr params app hnew
    constructor
    · intro e he
      obtain ⟨j, file, _, hmem⟩ := ProcessFrom_mem app world.file e _ 0 he
      constructor
      · intro d s p heq
        have h := (ProcessFile_entry_mem app (world.file j) file e (by rw [heq]; rfl) hmem).2
        rw [hp, heq] at h
        by_cases hm : params.interpolationMode = InterpolationMode.CAS
        · exact hsome.2 hm
        · rw [if_neg hm] at h
          cases h
      · intro d s p heq
        have h := (ProcessFile_entry_mem app (world.file j) file e (by rw [heq]; rfl) hmem).2
        rw [hp, heq] at h
        by_cases hm : params.interpolationMode = InterpolationMode.CAS
        · rw [if_pos hm] at h
          cases h
        · cases hc : params.interpolationMode with
          | CAS => exact absurd hc hm
          | Count => exact absurd hc hmode
          | NearestNeighbor =>
            exact ⟨by simp, WICBitmapInterpolationMode.NearestNeighbor, rfl⟩
          | Linear => exact ⟨by simp, WICBitmapInterpolationMode.Linear, rfl⟩
          | Cubic => exact ⟨by simp, WICBitmapInterpolationMode.Cubic, rfl⟩
          | HighQualityCubic =>
            exact ⟨by simp, WICBitmapInterpolationMode.HighQualityCubic, rfl⟩
          | Fant => exact ⟨by simp, WICBitmapInterpolationMode.Fant, rfl⟩
    · intro line herr
      have hab := hprocess app hnew
      unfold Run.isAbort at hab
      rw [herr] at hab
      simp at hab
  · apply wmain_not_aborted_of_body
    rw [wmainBody_of_parse_ok wtoi world argv params hparse]
    unfold Run.isAbort
    rw [withCoInitializeObj_result]
    cases hnew : (Application.new world.hr params).result with
    | error x =>
      rw [Run.result_bind_of_error _ _ x hnew]
      have hab := Application_new_isAbort world.hr params
      unfold Run.isAbort at hab
      rw [hnew] at hab
      cases x <;> simp at hab ⊢
    | ok app =>
      rw [Run.result_bind_of_ok _ _ app hnew]
      exact hprocess app hnew

/-- Witness for C12: `-Mode Cubic a.png b.png` with every call succeeding. -/
theorem assertions_hold_after_accepted_parse_witness :
    ParseCommandLine wtoiAscii
      (List.tail [L "CasCmdLine.exe", L "-Mode", L "Cubic", L "a.png", L "b.png"]) =
      Except.ok paramsCubic ∧
    (wmain wtoiAscii worldOk
      [L "CasCmdLine.exe", L "-Mode", L "Cubic", L "a.png", L "b.png"]).2 ≠
      ExitStatus.aborted :=
  ⟨by decide,
    (assertions_hold_after_accepted_parse wtoiAscii worldOk
      [L "CasCmdLine.exe", L "-Mode", L "Cubic", L "a.png", L "b.png"] paramsCubic
      (by decide)).2.2⟩

end CasCmdLine
